import Mathlib

/-!
Verification of the raylib.audio module (music streaming, sound loading and the
rRES resource reader) against its natural-language specification.

The C module is shallowly embedded: the process-wide `currentMusic` record plus
the OpenAL state it manipulates become an explicit `AudioState`; the external
stb_vorbis decoder is modelled by a position/length pair with a greedy sample
getter satisfying the library contract (a call asked for `numShorts` shorts
returns `n` samples per channel with `n * channels ≤ numShorts`, and `0` once
the stream is exhausted); OpenAL calls that the claims observe are recorded as
an `ALEvent` trace.  C `int` counters that the code can drive below zero are
`Int`; all other machine integers are `Nat` (no value in this module is ever
near an overflow boundary on the paths the claims describe).
-/

/-- Size in shorts of the local PCM decode array of `BufferMusicStream`
(`#define MUSIC_BUFFER_SIZE 4096*8`). -/
def MUSIC_BUFFER_SIZE : Nat := 4096 * 8

/-- Number of streaming buffers (`#define MUSIC_STREAM_BUFFERS 2`). -/
def MUSIC_STREAM_BUFFERS : Nat := 2

/-- Model of an open `stb_vorbis` decoder handle: total stream length in
samples per channel, and the current decode position in samples per channel. -/
structure VorbisStream where
  total : Nat
  pos : Nat
  deriving DecidableEq, Repr

/-- Model of `stb_vorbis_stream_length_in_samples`. -/
def stb_vorbis_stream_length_in_samples (s : VorbisStream) : Nat := s.total

/-- Model of `stb_vorbis_seek_start`: rewind the decoder to the beginning. -/
def stb_vorbis_seek_start (s : VorbisStream) : VorbisStream := { s with pos := 0 }

/-- Model of `stb_vorbis_get_samples_short_interleaved stream channels buf numShorts`:
returns the number of samples per channel decoded together with the advanced
stream.  The model decodes greedily up to the request and the data remaining;
the library contract `n * channels ≤ numShorts` holds because
`n ≤ numShorts / channels`. -/
def stb_vorbis_get_samples_short_interleaved (s : VorbisStream) (channels numShorts : Nat) :
    Nat × VorbisStream :=
  let n := min (s.total - s.pos) (numShorts / channels)
  (n, { s with pos := s.pos + n })

/-- The decode loop of `BufferMusicStream`:
`while (size < MUSIC_BUFFER_SIZE) do streamedBytes := get_samples(...); ...`.
Expressed with explicit fuel so that the definition is structural; each
productive iteration consumes at least one sample of the data remaining, so
`s.total - s.pos + 1` units of fuel (supplied by `musicDecodeLoop`) always
suffice.  Returns the advanced stream, the final `size`, and the list of
`(offset, length)` writes made into the `pcm` array (in shorts). -/
def musicDecodeLoopF : Nat → VorbisStream → Nat → Nat → VorbisStream × Nat × List (Nat × Nat)
  | 0, s, _, size => (s, size, [])
  | fuel + 1, s, channels, size =>
    if size < MUSIC_BUFFER_SIZE then
      let r := stb_vorbis_get_samples_short_interleaved s channels (MUSIC_BUFFER_SIZE - size)
      if 0 < r.1 then
        let rest := musicDecodeLoopF fuel r.2 channels (size + r.1 * channels)
        (rest.1, rest.2.1, (size, r.1 * channels) :: rest.2.2)
      else (r.2, size, [])
    else (s, size, [])

/-- The decode loop of `BufferMusicStream`, starting from accumulated `size`. -/
def musicDecodeLoop (s : VorbisStream) (channels size : Nat) : VorbisStream × Nat × List (Nat × Nat) :=
  musicDecodeLoopF (s.total - s.pos + 1) s channels size

/-- Model of the OpenAL source used for music streaming: the queue of buffer
names in order, the playing flag (`AL_SOURCE_STATE`), and whether the source
name is still allocated (`alGenSources` / `alDeleteSources`). -/
structure ALSource where
  queued : List Nat
  playing : Bool
  alive : Bool
  deriving DecidableEq, Repr

/-- The two OpenAL formats `PlayMusicStream` can select. -/
inductive ALFormat
  | mono16
  | stereo16
  deriving DecidableEq, Repr

/-- The whole observable state of the audio module: the global `musicEnabled`
flag plus the fields of the singleton `currentMusic` record and the OpenAL
objects it owns.  `bufData` records, for each of the two streaming buffers
(names `0` and `1`), the chunk last uploaded with `alBufferData` as a
`(start position in samples per channel, length in shorts)` pair, `none`
meaning the buffer holds no uploaded data. -/
structure AudioState where
  musicEnabled : Bool
  stream : VorbisStream
  streamOpen : Bool
  channels : Nat
  sampleRate : Nat
  format : ALFormat
  totalSamplesLeft : Int
  loop : Bool
  source : ALSource
  buffersAlive : Bool
  bufData : Option (Nat × Nat) × Option (Nat × Nat)
  deriving DecidableEq, Repr

/-- OpenAL / stb_vorbis calls observed by the claims, recorded as a trace. -/
inductive ALEvent
  | sourceStop
  | unqueueBuf (buffer : Nat)
  | deleteSource
  | deleteBuffers
  | vorbisClose
  | genSource
  | genBuffers
  | bufferData (buffer startPos sizeShorts : Nat)
  | queueBuffers (buffers : List Nat)
  | sourcePlay
  | seekStart
  deriving DecidableEq, Repr

/-- Record an `alBufferData` upload into the per-buffer chunk table. -/
def setBufData (st : AudioState) (buffer : Nat) (chunk : Nat × Nat) : AudioState :=
  if buffer = 0 then { st with bufData := (some chunk, st.bufData.2) }
  else if buffer = 1 then { st with bufData := (st.bufData.1, some chunk) }
  else st

/-- `BufferMusicStream buffer`: decode up to `MUSIC_BUFFER_SIZE` shorts into the
local `pcm` array (only when `musicEnabled`); if any data was obtained, upload
it with `alBufferData` and subtract the uploaded short count from
`totalSamplesLeft`, otherwise return `active = false`.  Returns the `active`
flag, the new state, and the AL events emitted. -/
def bufferMusicStream (st : AudioState) (buffer : Nat) : Bool × AudioState × List ALEvent :=
  let startPos := st.stream.pos
  let dec := if st.musicEnabled then musicDecodeLoop st.stream st.channels 0
             else (st.stream, 0, [])
  let size := dec.2.1
  let st1 := { st with stream := dec.1 }
  if 0 < size then
    (true,
     { setBufData st1 buffer (startPos, size) with
       totalSamplesLeft := st1.totalSamplesLeft - size },
     [ALEvent.bufferData buffer startPos size])
  else (false, st1, [])

/-- `EmptyMusicStream`: unqueue every buffer still queued on the source. -/
def emptyMusicStream (st : AudioState) : AudioState × List ALEvent :=
  ({ st with source := { st.source with queued := [] } },
   st.source.queued.map ALEvent.unqueueBuf)

/-- `StopMusicStream`: when music is enabled, stop the source, empty its queue,
delete the source and the two buffers and close the decoder; in every case
clear `musicEnabled`. -/
def stopMusicStream (st : AudioState) : AudioState × List ALEvent :=
  if st.musicEnabled = true then
    let st1 := { st with source := { st.source with playing := false } }
    let e := emptyMusicStream st1
    let st2 := { e.1 with
      source := { e.1.source with alive := false },
      buffersAlive := false, streamOpen := false, musicEnabled := false }
    (st2, ALEvent.sourceStop :: e.2 ++
      [ALEvent.deleteSource, ALEvent.deleteBuffers, ALEvent.vorbisClose])
  else ({ st with musicEnabled := false }, [])

/-- Log levels of `TraceLog`. -/
inductive LogLevel
  | info
  | warning
  | error
  | debug
  deriving DecidableEq, Repr

/-- One `TraceLog` message. -/
structure LogMsg where
  level : LogLevel
  text : String
  deriving DecidableEq, Repr

/-- Modelled from the spec: `GetExtension` is defined in `utils.c`, which is not
part of this source tree; its uses in `LoadSound` and `PlayMusicStream` compare
the file-name extension against "wav" and "ogg", so it is modelled as the
substring of the file name after the last dot. -/
def getExtension (fileName : String) : String :=
  ((fileName.toList.reverse.takeWhile fun c => c ≠ '.').reverse).asString

/-- Outcome of `stb_vorbis_open_filename` as observed by `PlayMusicStream`:
either the open fails (`NULL` stream), or it yields a decoder with the given
`stb_vorbis_info` channel count and sample rate and the given stream length in
samples per channel. -/
inductive OggOpen
  | fail
  | ok (channels sampleRate lengthInSamples : Nat)
  deriving DecidableEq, Repr

/-- Warning logged by `PlayMusicStream` on an unrecognized extension. -/
def musicExtensionMsg (f : String) : LogMsg :=
  ⟨.warning, "[" ++ f ++ "] Music extension not recognized, it can not be loaded"⟩

/-- Warning logged by `PlayMusicStream` when the ogg file cannot be opened. -/
def oggOpenFailMsg (f : String) : LogMsg :=
  ⟨.warning, "[" ++ f ++ "] Could not open ogg audio file"⟩

/-- `PlayMusicStream fileName`: on an "ogg" extension, first stop and release
any current music, then open the stream; on success record the stream info, set
the loop flag and `musicEnabled`, generate the source and the two buffers, fill
both buffers, queue them, start playback, and finally set `totalSamplesLeft` to
the stream length in samples times the channel count.  Source parameter calls
(`alSourcef` etc.) and the informational `TraceLog` lines of the success path
are not tracked.  Returns the new state, the AL event trace and the log. -/
def playMusicStream (st : AudioState) (fileName : String) (openResult : OggOpen) :
    AudioState × List ALEvent × List LogMsg :=
  if getExtension fileName = "ogg" then
    let stop := stopMusicStream st
    match openResult with
    | .fail =>
      ({ stop.1 with streamOpen := false }, stop.2, [oggOpenFailMsg fileName])
    | .ok channels sampleRate lengthInSamples =>
      let st1 : AudioState :=
        { stop.1 with
          stream := { total := lengthInSamples, pos := 0 }, streamOpen := true,
          channels := channels, sampleRate := sampleRate,
          format := if channels = 2 then ALFormat.stereo16 else ALFormat.mono16,
          loop := true, musicEnabled := true,
          source := { queued := [], playing := false, alive := true },
          buffersAlive := true, bufData := (none, none) }
      let f0 := bufferMusicStream st1 0
      let f1 := bufferMusicStream f0.2.1 1
      let st2 := f1.2.1
      let st3 := { st2 with source := { st2.source with queued := [0, 1], playing := true } }
      let st4 := { st3 with
        totalSamplesLeft :=
          (stb_vorbis_stream_length_in_samples st3.stream * st3.channels : Nat) }
      (st4,
       stop.2 ++ [ALEvent.genSource, ALEvent.genBuffers] ++ f0.2.2 ++ f1.2.2 ++
         [ALEvent.queueBuffers [0, 1], ALEvent.sourcePlay],
       [])
  else (st, [], [musicExtensionMsg fileName])

/-- One iteration of the refill loop of `UpdateMusicStream`: unqueue the front
buffer, refill it with `BufferMusicStream`, and if that obtained no data while
the loop flag is set, rewind the decoder, reset `totalSamplesLeft` to the
stream length in samples times the channel count and refill again; finally
re-queue the buffer.  Returns the new state, the iteration's `active` flag and
the events.  The `alGetError` check of the C code is not tracked. -/
def updateIter (st : AudioState) : AudioState × Bool × List ALEvent :=
  let buffer := st.source.queued.headD 0
  let st1 := { st with source := { st.source with queued := st.source.queued.tail } }
  let fill := bufferMusicStream st1 buffer
  let step :=
    if fill.1 = false ∧ fill.2.1.loop = true then
      if fill.2.1.loop = true then
        let st2 := { fill.2.1 with
          stream := stb_vorbis_seek_start fill.2.1.stream,
          totalSamplesLeft :=
            (stb_vorbis_stream_length_in_samples fill.2.1.stream * fill.2.1.channels : Nat) }
        let fill2 := bufferMusicStream st2 buffer
        (fill2.1, fill2.2.1, fill.2.2 ++ ALEvent.seekStart :: fill2.2.2)
      else (fill.1, fill.2.1, fill.2.2)
    else (fill.1, fill.2.1, fill.2.2)
  ({ step.2.1 with
     source := { step.2.1.source with queued := step.2.1.source.queued ++ [buffer] } },
   step.1,
   ALEvent.unqueueBuf buffer :: step.2.2 ++ [ALEvent.queueBuffers [buffer]])

/-- The `while (processed > 0)` loop of `UpdateMusicStream`, iterating
`updateIter` once per processed buffer; `active` is the flag threaded through
the loop (each iteration overwrites it). -/
def updateLoop : AudioState → Bool → Nat → AudioState × Bool × List ALEvent
  | st, active, 0 => (st, active, [])
  | st, _, n + 1 =>
    let r := updateIter st
    let rest := updateLoop r.1 r.2.1 n
    (rest.1, rest.2.1, r.2.2 ++ rest.2.2)

/-- `UpdateMusicStream`: when music is enabled, run the refill loop over the
`processed` buffers reported by OpenAL, then restart playback if the source is
not playing while the stream is still active, and stop the whole music stream
if it is not active.  `processed` is the count reported by
`alGetSourcei AL_BUFFERS_PROCESSED`. -/
def updateMusicStream (st : AudioState) (processed : Nat) : AudioState × List ALEvent :=
  if st.musicEnabled = true then
    let r := updateLoop st true processed
    let st1 := r.1
    let p2 :=
      if st1.source.playing = false ∧ r.2.1 = true then
        ({ st1 with source := { st1.source with playing := true } }, [ALEvent.sourcePlay])
      else (st1, ([] : List ALEvent))
    if r.2.1 = false then
      let s := stopMusicStream p2.1
      (s.1, r.2.2 ++ p2.2 ++ s.2)
    else (p2.1, r.2.2 ++ p2.2)
  else (st, [])

/-- `GetMusicTimePlayed`: the C float arithmetic is modelled with exact
rationals. -/
def getMusicTimePlayed (st : AudioState) : Rat :=
  let totalSamples : Int := (stb_vorbis_stream_length_in_samples st.stream * st.channels : Nat)
  let samplesPlayed : Int := totalSamples - st.totalSamplesLeft
  (samplesPlayed : Rat) / ((st.sampleRate * st.channels : Nat) : Rat)

/-- Total number of shorts handed to OpenAL buffers in an event trace. -/
def handedShorts : List ALEvent → Nat
  | [] => 0
  | ALEvent.bufferData _ _ sizeShorts :: rest => sizeShorts + handedShorts rest
  | _ :: rest => handedShorts rest

/-- A four-character tag as read from a WAV header. -/
structure FourCC where
  c0 : Char
  c1 : Char
  c2 : Char
  c3 : Char
  deriving DecidableEq, Repr

/-- The header fields of a WAV file as `LoadWAV` reads them (the binary
deserialization of the `RiffHeader`, `WaveFormat` and `WaveData` structs is
modelled at field level). -/
structure WavFileContent where
  chunkID : FourCC
  chunkSize : Int
  format : FourCC
  fmtID : FourCC
  fmtSize : Int
  audioFormat : Int
  numChannels : Nat
  sampleRate : Nat
  byteRate : Int
  blockAlign : Int
  bitsPerSample : Nat
  dataID : FourCC
  dataSize : Nat
  deriving DecidableEq, Repr

/-- The `Wave` struct.  A field is `none` while it has not been assigned, which
models the C struct being left uninitialized on the failure paths. -/
structure Wave where
  data : Option Nat
  dataSize : Option Nat
  sampleRate : Option Nat
  bitsPerSample : Option Nat
  channels : Option Nat
  deriving DecidableEq, Repr

/-- A `Wave` none of whose fields has been assigned. -/
def uninitWave : Wave := ⟨none, none, none, none, none⟩

/-- Warning logged by `LoadWAV` when the file cannot be opened. -/
def wavOpenFailMsg (f : String) : LogMsg :=
  ⟨.warning, "[" ++ f ++ "] Could not open WAV file"⟩

/-- Warning logged by `LoadWAV` on a bad RIFF/WAVE tag. -/
def wavRiffMsg (f : String) : LogMsg :=
  ⟨.warning, "[" ++ f ++ "] Invalid RIFF or WAVE Header"⟩

/-- Warning logged by `LoadWAV` on a bad fmt tag. -/
def wavFmtMsg (f : String) : LogMsg :=
  ⟨.warning, "[" ++ f ++ "] Invalid Wave format"⟩

/-- Warning logged by `LoadWAV` on a bad data tag. -/
def wavDataMsg (f : String) : LogMsg :=
  ⟨.warning, "[" ++ f ++ "] Invalid data header"⟩

/-- Info logged by `LoadWAV` on success. -/
def wavLoadedMsg (f : String) : LogMsg :=
  ⟨.info, "[" ++ f ++ "] Wave file loaded successfully"⟩

/-- `LoadWAV`: check the RIFF/WAVE, fmt and data tags in order, logging a
warning and returning with `wave` left uninitialized on the first mismatch
(the file, when it opens, is `some` content; `none` is a failed `fopen`).
The extra-parameter `fseek` for `subChunkSize > 16` has no field-level
effect in this model. -/
def loadWAV (fileName : String) (file : Option WavFileContent) : Wave × List LogMsg :=
  match file with
  | none => (uninitWave, [wavOpenFailMsg fileName])
  | some c =>
    if c.chunkID.c0 ≠ 'R' ∨ c.chunkID.c1 ≠ 'I' ∨ c.chunkID.c2 ≠ 'F' ∨ c.chunkID.c3 ≠ 'F' ∨
       c.format.c0 ≠ 'W' ∨ c.format.c1 ≠ 'A' ∨ c.format.c2 ≠ 'V' ∨ c.format.c3 ≠ 'E' then
      (uninitWave, [wavRiffMsg fileName])
    else if c.fmtID.c0 ≠ 'f' ∨ c.fmtID.c1 ≠ 'm' ∨ c.fmtID.c2 ≠ 't' ∨ c.fmtID.c3 ≠ ' ' then
      (uninitWave, [wavFmtMsg fileName])
    else if c.dataID.c0 ≠ 'd' ∨ c.dataID.c1 ≠ 'a' ∨ c.dataID.c2 ≠ 't' ∨ c.dataID.c3 ≠ 'a' then
      (uninitWave, [wavDataMsg fileName])
    else
      ({ data := some c.dataSize, dataSize := some c.dataSize,
         sampleRate := some c.sampleRate, bitsPerSample := some c.bitsPerSample,
         channels := some c.numChannels },
       [wavLoadedMsg fileName])

/-- The `stb_vorbis_info` data `LoadOGG` reads from an opened ogg file. -/
structure OggFileInfo where
  channels : Nat
  sampleRate : Nat
  lengthInSamples : Nat
  deriving DecidableEq, Repr

/-- `LoadOGG`: decode the whole file into a `Wave`.  The C code performs no
failure checks at all on this path (the `stb_vorbis_open_filename` result is
used unconditionally), so the model takes the opened file's info directly. -/
def loadOGG (ogg : OggFileInfo) : Wave × List LogMsg :=
  ({ data := some (ogg.lengthInSamples * ogg.channels * 2),
     dataSize := some (ogg.lengthInSamples * ogg.channels * 2),
     sampleRate := some ogg.sampleRate, bitsPerSample := some 16,
     channels := some ogg.channels },
   [])

/-- The `Sound` struct: source and buffer names, `none` while unassigned
(modelling the C struct being returned uninitialized on failure paths). -/
structure Sound where
  source : Option Nat
  buffer : Option Nat
  deriving DecidableEq, Repr

/-- A `Sound` none of whose fields has been assigned. -/
def uninitSound : Sound := ⟨none, none⟩

/-- Warning logged by `LoadSound` on an unrecognized extension. -/
def soundExtensionMsg (f : String) : LogMsg :=
  ⟨.warning, "[" ++ f ++ "] Sound extension not recognized, it can not be loaded"⟩

/-- Info logged by `LoadSound` on success. -/
def soundLoadedMsg (f : String) : LogMsg :=
  ⟨.info, "[" ++ f ++ "] Sound file loaded successfully"⟩

/-- `LoadSound`: dispatch on the extension; on "wav"/"ogg" load the wave and,
when its data pointer is set, create a source and a buffer for it; on an
unrecognized extension log a warning and return with `sound` uninitialized.
On that path the C code tests `wave.data` on an uninitialized local `Wave`;
the model reads the uninitialized field as unset, so the test fails and the
uninitialized `sound` is returned. -/
def loadSound (fileName : String) (wavFile : Option WavFileContent) (oggFile : OggFileInfo) :
    Sound × List LogMsg :=
  if getExtension fileName = "wav" then
    let r := loadWAV fileName wavFile
    if r.1.data ≠ none then
      ({ source := some 0, buffer := some 0 }, r.2 ++ [soundLoadedMsg fileName])
    else (uninitSound, r.2)
  else if getExtension fileName = "ogg" then
    let r := loadOGG oggFile
    if r.1.data ≠ none then
      ({ source := some 0, buffer := some 0 }, r.2 ++ [soundLoadedMsg fileName])
    else (uninitSound, r.2)
  else (uninitSound, [soundExtensionMsg fileName])

/-- Modelled from the spec: `ResInfoHeader` is declared in `utils.h`, which is
not part of this source tree.  The spec describes a "per-record
type/size/offset header" read in one `fread`; the model fixes a 12-byte
little-endian layout: record id (2 bytes), type tag (1 byte), one reserved
byte, embedded data size (4 bytes), uncompressed source size (4 bytes). -/
structure ResInfoHeader where
  id : Nat
  rtype : Nat
  size : Nat
  srcSize : Nat
  deriving DecidableEq, Repr

/-- Read one `ResInfoHeader` from the front of the byte list (bytes past the
end of the file read as 0, a deterministic stand-in for `fread` leaving the
destination unchanged). -/
def readResInfoHeader (bytes : List Nat) : ResInfoHeader × List Nat :=
  ({ id := bytes.getD 0 0 + 256 * bytes.getD 1 0,
     rtype := bytes.getD 2 0,
     size := bytes.getD 4 0 + 256 * bytes.getD 5 0 + 65536 * bytes.getD 6 0 +
       16777216 * bytes.getD 7 0,
     srcSize := bytes.getD 8 0 + 256 * bytes.getD 9 0 + 65536 * bytes.getD 10 0 +
       16777216 * bytes.getD 11 0 },
   bytes.drop 12)

/-- Per-type parameter byte counts skipped for a non-matching record
(the `switch (infoHeader.type)` of `LoadSoundFromRES`): 6 for IMAGE (0) and
SOUND (1), 5 for MODEL (2), 0 for TEXT (3), RAW (4) and the default case. -/
def paramBytes (rtype : Nat) : Nat :=
  match rtype with
  | 0 => 6
  | 1 => 6
  | 2 => 5
  | _ => 0

/-- Warning logged by `LoadSoundFromRES` when a matching record is not SOUND. -/
def resNotValidSoundMsg (f : String) : LogMsg :=
  ⟨.warning, "[" ++ f ++ "] Required resource do not seem to be a valid SOUND resource"⟩

/-- Info logged by `LoadSoundFromRES` when the sound is loaded. -/
def resLoadedMsg (f : String) : LogMsg :=
  ⟨.info, "[" ++ f ++ "] Sound loaded successfully from resource"⟩

/-- Result of the record scan of `LoadSoundFromRES`: the unread remainder of
the file, the `found` flag, the `sound` being built, the log, and the list of
record headers visited (in order). -/
structure ResScan where
  rest : List Nat
  found : Bool
  sound : Sound
  log : List LogMsg
  headers : List ResInfoHeader
  deriving DecidableEq, Repr

/-- The `for (i = 0; i < numRes; i++)` record scan of `LoadSoundFromRES`: read
a record header; on an id match mark `found` and either load the SOUND record
(reading its 6 parameter bytes and its data) or log a warning; on a mismatch
skip the type-specific parameter bytes and the record data.  The
`DecompressData` call of a matched SOUND record only feeds `alBufferData` and
is not tracked. -/
def scanResRecords (fileName : String) (resId : Nat) :
    Nat → List Nat → Bool → Sound → ResScan
  | 0, bytes, found, sound => ⟨bytes, found, sound, [], []⟩
  | n + 1, bytes, found, sound =>
    let h := readResInfoHeader bytes
    if h.1.id = resId then
      if h.1.rtype = 1 then
        let r := scanResRecords fileName resId n ((h.2.drop 6).drop h.1.size) true
          ⟨some 0, some 0⟩
        ⟨r.rest, r.found, r.sound, resLoadedMsg fileName :: r.log, h.1 :: r.headers⟩
      else
        let r := scanResRecords fileName resId n h.2 true sound
        ⟨r.rest, r.found, r.sound, resNotValidSoundMsg fileName :: r.log, h.1 :: r.headers⟩
    else
      let r := scanResRecords fileName resId n ((h.2.drop (paramBytes h.1.rtype)).drop h.1.size)
        found sound
      ⟨r.rest, r.found, r.sound, r.log, h.1 :: r.headers⟩

/-- Warning logged by `LoadSoundFromRES` when the file cannot be opened. -/
def resOpenFailMsg (f : String) : LogMsg :=
  ⟨.warning, "[" ++ f ++ "] Could not open raylib resource file"⟩

/-- Warning logged by `LoadSoundFromRES` on a failed magic check. -/
def resInvalidFileMsg (f : String) : LogMsg :=
  ⟨.warning, "[" ++ f ++ "] This is not a valid raylib resource file"⟩

/-- Warning logged by `LoadSoundFromRES` when the requested id is not found. -/
def resNotFoundMsg (f : String) (resId : Nat) : LogMsg :=
  ⟨.warning, "[" ++ f ++ "] Required resource id " ++ toString resId ++
    " could not be found in the raylib resource file"⟩

/-- Read the 2-byte little-endian `short numRes` (signed, as in C). -/
def readShort16 (bytes : List Nat) : Int :=
  let v := bytes.getD 0 0 + 256 * bytes.getD 1 0
  if v < 32768 then (v : Int) else (v : Int) - 65536

/-- Result of `LoadSoundFromRES`: the sound, the log, and the record headers
visited by the scan. -/
structure ResLoad where
  sound : Sound
  log : List LogMsg
  headers : List ResInfoHeader
  deriving DecidableEq, Repr

/-- `LoadSoundFromRES rresName resId`: open the file, read the 4 magic bytes,
the version byte and the reserved byte, test the magic — with the `&&`-chain
of `!=` comparisons exactly as in the source — then read the record count and
scan the records; finally log a not-found warning when `found` is still
false. -/
def loadSoundFromRES (rresName : String) (file : Option (List Nat)) (resId : Nat) : ResLoad :=
  match file with
  | none => ⟨uninitSound, [resOpenFailMsg rresName, resNotFoundMsg rresName resId], []⟩
  | some bytes =>
    if bytes.getD 0 0 ≠ 'r'.toNat ∧ bytes.getD 1 0 ≠ 'R'.toNat ∧
       bytes.getD 2 0 ≠ 'E'.toNat ∧ bytes.getD 3 0 ≠ 'S'.toNat then
      ⟨uninitSound, [resInvalidFileMsg rresName, resNotFoundMsg rresName resId], []⟩
    else
      let numRes := readShort16 (bytes.drop 6)
      let scan := scanResRecords rresName resId numRes.toNat ((bytes.drop 6).drop 2)
        false uninitSound
      ⟨scan.sound,
       scan.log ++ (if scan.found = true then [] else [resNotFoundMsg rresName resId]),
       scan.headers⟩

/-- Serialization of a `ResInfoHeader` in the modelled 12-byte layout. -/
def encodeResInfoHeader (h : ResInfoHeader) : List Nat :=
  [h.id % 256, h.id / 256 % 256, h.rtype % 256, 0,
   h.size % 256, h.size / 256 % 256, h.size / 65536 % 256, h.size / 16777216 % 256,
   h.srcSize % 256, h.srcSize / 256 % 256, h.srcSize / 65536 % 256, h.srcSize / 16777216 % 256]

/-- One record of a well-formed rRES archive: header fields plus the parameter
bytes and the embedded data. -/
structure ResRecord where
  id : Nat
  rtype : Nat
  params : List Nat
  data : List Nat
  srcSize : Nat
  deriving DecidableEq, Repr

/-- The header of a record as it appears in the file. -/
def recordHeader (r : ResRecord) : ResInfoHeader :=
  ⟨r.id, r.rtype, r.data.length, r.srcSize⟩

/-- Serialization of one record: header, parameter bytes, data. -/
def encodeResRecord (r : ResRecord) : List Nat :=
  encodeResInfoHeader (recordHeader r) ++ r.params ++ r.data

/-- A record is well formed when its numeric fields fit their encodings and it
carries exactly the parameter bytes its type prescribes. -/
def wellFormedRecord (r : ResRecord) : Prop :=
  r.id < 65536 ∧ r.rtype < 256 ∧ r.params.length = paramBytes r.rtype ∧
    r.data.length < 4294967296 ∧ r.srcSize < 4294967296

instance (r : ResRecord) : Decidable (wellFormedRecord r) := by
  unfold wellFormedRecord; infer_instance

/-- Serialization of a well-formed rRES archive: the 4 magic bytes, a version
byte, a reserved byte, the 2-byte little-endian record count, then the
records. -/
def encodeArchive (records : List ResRecord) : List Nat :=
  ['r'.toNat, 'R'.toNat, 'E'.toNat, 'S'.toNat, 1, 0,
   records.length % 256, records.length / 256 % 256] ++
    (records.map encodeResRecord).flatten

/-- States on which a refill can obtain no data: the decoder has no samples
left, or the per-call short budget divided by the channel count is zero. -/
def exhausted (st : AudioState) : Prop :=
  st.stream.total - st.stream.pos = 0 ∨ MUSIC_BUFFER_SIZE / st.channels = 0

instance (st : AudioState) : Decidable (exhausted st) := by
  unfold exhausted; infer_instance

/-- States from which the update loop can always keep the source fed: music
enabled, looping, a nonempty stream, and a mono or stereo channel count. -/
def streamFeeds (st : AudioState) : Prop :=
  st.musicEnabled = true ∧ st.loop = true ∧ 0 < st.stream.total ∧
    (st.channels = 1 ∨ st.channels = 2)

instance (st : AudioState) : Decidable (streamFeeds st) := by
  unfold streamFeeds; infer_instance

/-- The zero-initialized module state at program start (`musicEnabled = false`
and the static `currentMusic` record zeroed). -/
def initialAudioState : AudioState :=
  ⟨false, ⟨0, 0⟩, false, 0, 0, .mono16, 0, false, ⟨[], false, false⟩, false, (none, none)⟩

/-- Sample state for witnesses: an enabled looping stream with data left. -/
def sampleFreshState : AudioState :=
  ⟨true, ⟨40000, 0⟩, true, 1, 8000, .mono16, 40000, true, ⟨[0, 1], true, true⟩, true,
   (none, none)⟩

/-- Sample state for witnesses: an enabled looping stream at end of data. -/
def sampleLoopEndState : AudioState :=
  ⟨true, ⟨100, 100⟩, true, 1, 8000, .mono16, 0, true, ⟨[0, 1], false, true⟩, true,
   (some (0, 100), none)⟩

/-- Sample state for witnesses: an enabled non-looping stream at end of data. -/
def sampleNoLoopEndState : AudioState :=
  ⟨true, ⟨100, 100⟩, true, 1, 8000, .mono16, 0, false, ⟨[0, 1], true, true⟩, true,
   (some (0, 100), none)⟩

/-- Sample WAV content with a corrupted RIFF tag. -/
def sampleBadRiff : WavFileContent :=
  ⟨⟨'X', 'I', 'F', 'F'⟩, 36, ⟨'W', 'A', 'V', 'E'⟩, ⟨'f', 'm', 't', ' '⟩, 16, 1, 1, 8000,
   16000, 2, 16, ⟨'d', 'a', 't', 'a'⟩, 4⟩

/-- Sample WAV content with a corrupted fmt tag. -/
def sampleBadFmt : WavFileContent :=
  ⟨⟨'R', 'I', 'F', 'F'⟩, 36, ⟨'W', 'A', 'V', 'E'⟩, ⟨'x', 'm', 't', ' '⟩, 16, 1, 1, 8000,
   16000, 2, 16, ⟨'d', 'a', 't', 'a'⟩, 4⟩

/-- Sample WAV content with a corrupted data tag. -/
def sampleBadData : WavFileContent :=
  ⟨⟨'R', 'I', 'F', 'F'⟩, 36, ⟨'W', 'A', 'V', 'E'⟩, ⟨'f', 'm', 't', ' '⟩, 16, 1, 1, 8000,
   16000, 2, 16, ⟨'x', 'a', 't', 'a'⟩, 4⟩

/-- The decode loop never changes the stream length. -/
lemma musicDecodeLoopF_total (fuel : Nat) :
    ∀ (s : VorbisStream) (ch size : Nat), (musicDecodeLoopF fuel s ch size).1.total = s.total := by
  induction fuel with
  | zero => intro s ch size; rfl
  | succ n ih =>
    intro s ch size
    simp only [musicDecodeLoopF]
    split
    · split
      · exact ih _ _ _
      · rfl
    · rfl

/-- The accumulated size only grows along the decode loop. -/
lemma musicDecodeLoopF_size_le (fuel : Nat) :
    ∀ (s : VorbisStream) (ch size : Nat), size ≤ (musicDecodeLoopF fuel s ch size).2.1 := by
  induction fuel with
  | zero => intro s ch size; exact le_refl _
  | succ n ih =>
    intro s ch size
    simp only [musicDecodeLoopF]
    split
    · split
      · exact le_trans (Nat.le_add_right _ _) (ih _ _ _)
      · exact le_refl _
    · exact le_refl _

/-- The decode loop exits immediately once `size` has reached the buffer size. -/
lemma musicDecodeLoopF_done (fuel : Nat) (s : VorbisStream) (ch size : Nat)
    (h : ¬size < MUSIC_BUFFER_SIZE) :
    musicDecodeLoopF fuel s ch size = (s, size, []) := by
  cases fuel <;> simp [musicDecodeLoopF, h]

/-- Bounds for the decode loop: starting within budget, the final size stays
within `MUSIC_BUFFER_SIZE` and every write fits inside the `pcm` array. -/
lemma musicDecodeLoopF_writes (fuel : Nat) :
    ∀ (s : VorbisStream) (ch size : Nat), size ≤ MUSIC_BUFFER_SIZE →
      (musicDecodeLoopF fuel s ch size).2.1 ≤ MUSIC_BUFFER_SIZE ∧
      ∀ w ∈ (musicDecodeLoopF fuel s ch size).2.2, w.1 + w.2 ≤ MUSIC_BUFFER_SIZE := by
  induction fuel with
  | zero => intro s ch size h; exact ⟨h, by simp [musicDecodeLoopF]⟩
  | succ n ih =>
    intro s ch size h
    simp only [musicDecodeLoopF, stb_vorbis_get_samples_short_interleaved]
    split
    · split
      · have hle : min (s.total - s.pos) ((MUSIC_BUFFER_SIZE - size) / ch) * ch ≤
            MUSIC_BUFFER_SIZE - size :=
          le_trans (Nat.mul_le_mul_right ch (min_le_right _ _)) (Nat.div_mul_le_self _ _)
        have hb : size + min (s.total - s.pos) ((MUSIC_BUFFER_SIZE - size) / ch) * ch ≤
            MUSIC_BUFFER_SIZE := by omega
        obtain ⟨ih1, ih2⟩ := ih _ ch _ hb
        refine ⟨ih1, ?_⟩
        intro w hw
        rcases List.mem_cons.mp hw with hw | hw
        · subst hw; exact hb
        · exact ih2 w hw
      · exact ⟨h, by simp⟩
    · exact ⟨h, by simp⟩

/-- With no data left (or a zero short budget per call) the decode loop
obtains nothing and leaves the stream untouched. -/
lemma musicDecodeLoop_exhausted (s : VorbisStream) (ch : Nat)
    (h : s.total - s.pos = 0 ∨ MUSIC_BUFFER_SIZE / ch = 0) :
    musicDecodeLoop s ch 0 = (s, 0, []) := by
  have h0 : (0 : Nat) < MUSIC_BUFFER_SIZE := by decide
  have hmin : min (s.total - s.pos) (MUSIC_BUFFER_SIZE / ch) = 0 := by
    rcases h with h | h <;> simp [h]
  simp only [musicDecodeLoop, musicDecodeLoopF, stb_vorbis_get_samples_short_interleaved]
  simp [h0, hmin]

/-- With data left and a positive short budget the decode loop obtains data. -/
lemma musicDecodeLoop_pos_size (s : VorbisStream) (ch : Nat)
    (hp : s.pos < s.total) (hch : 0 < MUSIC_BUFFER_SIZE / ch) :
    0 < (musicDecodeLoop s ch 0).2.1 := by
  have h0 : (0 : Nat) < MUSIC_BUFFER_SIZE := by decide
  have hch0 : 0 < ch := by
    by_contra hc
    have : ch = 0 := by omega
    simp [this] at hch
  have hmin : 0 < min (s.total - s.pos) (MUSIC_BUFFER_SIZE / ch) := by
    have : 0 < s.total - s.pos := by omega
    omega
  simp only [musicDecodeLoop, musicDecodeLoopF, stb_vorbis_get_samples_short_interleaved]
  simp only [Nat.sub_zero, h0, if_true, hmin, reduceIte]
  refine lt_of_lt_of_le ?_ (musicDecodeLoopF_size_le _ _ _ _)
  have : 0 < ((s.total - s.pos) ⊓ (MUSIC_BUFFER_SIZE / ch)) * ch := Nat.mul_pos hmin hch0
  omega

/-- With at least a full buffer of data left, a mono or stereo decode loop
fills the whole `pcm` array in one write. -/
lemma musicDecodeLoop_full (s : VorbisStream) (ch : Nat)
    (hch : ch = 1 ∨ ch = 2) (hrem : MUSIC_BUFFER_SIZE / ch ≤ s.total - s.pos) :
    musicDecodeLoop s ch 0 =
      ({ s with pos := s.pos + MUSIC_BUFFER_SIZE / ch }, MUSIC_BUFFER_SIZE,
       [(0, MUSIC_BUFFER_SIZE)]) := by
  have h0 : (0 : Nat) < MUSIC_BUFFER_SIZE := by decide
  have hmul : MUSIC_BUFFER_SIZE / ch * ch = MUSIC_BUFFER_SIZE := by
    rcases hch with h | h <;> subst h <;> decide
  have hpos : 0 < MUSIC_BUFFER_SIZE / ch := by
    rcases hch with h | h <;> subst h <;> decide
  have hmin : min (s.total - s.pos) (MUSIC_BUFFER_SIZE / ch) = MUSIC_BUFFER_SIZE / ch :=
    min_eq_right hrem
  simp only [musicDecodeLoop, musicDecodeLoopF, stb_vorbis_get_samples_short_interleaved,
    Nat.sub_zero, h0, if_true, hmin, hpos, reduceIte, Nat.zero_add, hmul]
  rw [musicDecodeLoopF_done _ _ _ _ (lt_irrefl MUSIC_BUFFER_SIZE)]

/-- A refill on an exhausted enabled state fails and changes nothing. -/
lemma bufferMusicStream_fail_state (st : AudioState) (b : Nat)
    (h : st.musicEnabled = true)
    (hx : st.stream.total - st.stream.pos = 0 ∨ MUSIC_BUFFER_SIZE / st.channels = 0) :
    bufferMusicStream st b = (false, st, []) := by
  have hd := musicDecodeLoop_exhausted st.stream st.channels hx
  obtain ⟨me, strm, so, ch, sr, fo, tsl, lp, src, ba, bd⟩ := st
  simp only at h
  subst h
  simp only at hd
  simp [bufferMusicStream, hd]

/-- A refill with music disabled fails and changes nothing. -/
lemma bufferMusicStream_disabled (st : AudioState) (b : Nat)
    (h : st.musicEnabled = false) :
    bufferMusicStream st b = (false, st, []) := by
  obtain ⟨me, strm, so, ch, sr, fo, tsl, lp, src, ba, bd⟩ := st
  simp only at h
  subst h
  simp [bufferMusicStream]

/-- A refill on an enabled state with data left succeeds. -/
lemma bufferMusicStream_succeeds (st : AudioState) (b : Nat)
    (h : st.musicEnabled = true) (hp : st.stream.pos < st.stream.total)
    (hch : 0 < MUSIC_BUFFER_SIZE / st.channels) :
    (bufferMusicStream st b).1 = true := by
  have hs := musicDecodeLoop_pos_size st.stream st.channels hp hch
  simp [bufferMusicStream, h, hs]

/-- Uploading buffer data touches only the `bufData` table. -/
lemma setBufData_fields (st : AudioState) (b : Nat) (c : Nat × Nat) :
    (setBufData st b c).musicEnabled = st.musicEnabled ∧
    (setBufData st b c).stream = st.stream ∧
    (setBufData st b c).streamOpen = st.streamOpen ∧
    (setBufData st b c).channels = st.channels ∧
    (setBufData st b c).sampleRate = st.sampleRate ∧
    (setBufData st b c).format = st.format ∧
    (setBufData st b c).totalSamplesLeft = st.totalSamplesLeft ∧
    (setBufData st b c).loop = st.loop ∧
    (setBufData st b c).source = st.source ∧
    (setBufData st b c).buffersAlive = st.buffersAlive := by
  unfold setBufData
  split
  · simp
  · split <;> simp

/-- Fields of the module state that a refill never modifies. -/
lemma bufferMusicStream_preserves (st : AudioState) (b : Nat) :
    (bufferMusicStream st b).2.1.musicEnabled = st.musicEnabled ∧
    (bufferMusicStream st b).2.1.loop = st.loop ∧
    (bufferMusicStream st b).2.1.channels = st.channels ∧
    (bufferMusicStream st b).2.1.sampleRate = st.sampleRate ∧
    (bufferMusicStream st b).2.1.stream.total = st.stream.total ∧
    (bufferMusicStream st b).2.1.source = st.source ∧
    (bufferMusicStream st b).2.1.streamOpen = st.streamOpen ∧
    (bufferMusicStream st b).2.1.buffersAlive = st.buffersAlive ∧
    (bufferMusicStream st b).2.1.format = st.format := by
  have htot : ∀ s : VorbisStream, ∀ ch sz : Nat, (musicDecodeLoop s ch sz).1.total = s.total :=
    fun s ch sz => musicDecodeLoopF_total _ s ch sz
  simp only [bufferMusicStream, setBufData]
  split_ifs <;> simp_all [musicDecodeLoop, musicDecodeLoopF_total]

/-- The refill decrements `totalSamplesLeft` by exactly the number of shorts
handed to the buffer (zero when no data was obtained). -/
lemma bufferMusicStream_counter (st : AudioState) (b : Nat) :
    (bufferMusicStream st b).2.1.totalSamplesLeft =
      st.totalSamplesLeft - (handedShorts (bufferMusicStream st b).2.2 : Nat) := by
  simp only [bufferMusicStream, setBufData]
  split_ifs <;> simp_all [handedShorts]

/-- A failed refill on an enabled state means the state was exhausted. -/
lemma bufferMusicStream_fail_inv (st : AudioState) (b : Nat)
    (h : st.musicEnabled = true) (hf : (bufferMusicStream st b).1 = false) :
    exhausted st := by
  by_contra hc
  unfold exhausted at hc
  push_neg at hc
  have hp : st.stream.pos < st.stream.total := by omega
  have hch : 0 < MUSIC_BUFFER_SIZE / st.channels := Nat.pos_of_ne_zero hc.2
  have := bufferMusicStream_succeeds st b h hp hch
  rw [this] at hf
  exact Bool.true_eq_false.mp hf

/-- A single refill hands at most `MUSIC_BUFFER_SIZE` shorts to its buffer. -/
lemma bufferMusicStream_handed_le (st : AudioState) (b : Nat) :
    handedShorts (bufferMusicStream st b).2.2 ≤ MUSIC_BUFFER_SIZE := by
  have h := musicDecodeLoopF_writes (st.stream.total - st.stream.pos + 1) st.stream
    st.channels 0 (Nat.zero_le _)
  simp only [bufferMusicStream]
  split_ifs <;> simp_all [handedShorts, musicDecodeLoop]

/-- Characterization of `StopMusicStream` on an enabled state: source stopped,
queue emptied, source and buffers deleted, decoder closed, flag cleared. -/
lemma stopMusicStream_enabled (st : AudioState) (he : st.musicEnabled = true) :
    stopMusicStream st =
      ({ st with
          musicEnabled := false
          streamOpen := false
          buffersAlive := false
          source := { queued := [], playing := false, alive := false } },
       ALEvent.sourceStop :: st.source.queued.map ALEvent.unqueueBuf ++
         [ALEvent.deleteSource, ALEvent.deleteBuffers, ALEvent.vorbisClose]) := by
  obtain ⟨me, strm, so, ch, sr, fo, tsl, lp, src, ba, bd⟩ := st
  simp only at he
  subst he
  simp [stopMusicStream, emptyMusicStream]

/-- Characterization of `StopMusicStream` on a disabled state: only the flag
assignment happens, nothing is released. -/
lemma stopMusicStream_disabled (st : AudioState) (he : st.musicEnabled = false) :
    stopMusicStream st = ({ st with musicEnabled := false }, []) := by
  obtain ⟨me, strm, so, ch, sr, fo, tsl, lp, src, ba, bd⟩ := st
  simp only at he
  subst he
  simp [stopMusicStream]

/-- After `StopMusicStream` the music-enabled flag is always clear. -/
lemma stopMusicStream_musicEnabled (st : AudioState) :
    (stopMusicStream st).1.musicEnabled = false := by
  by_cases he : st.musicEnabled = true
  · rw [stopMusicStream_enabled st he]
  · simp only [Bool.not_eq_true] at he
    rw [stopMusicStream_disabled st he]

/-- A successful `PlayMusicStream` always sets the loop flag. -/
lemma playMusicStream_ok_loop (st : AudioState) (f : String) (ch rate total : Nat)
    (hext : getExtension f = "ogg") :
    (playMusicStream st f (.ok ch rate total)).1.loop = true := by
  simp [playMusicStream, hext, (bufferMusicStream_preserves _ _).2.1]

/-- A successful `PlayMusicStream` ends with `totalSamplesLeft` equal to the
stream length in samples times the channel count. -/
lemma playMusicStream_ok_counter (st : AudioState) (f : String) (ch rate total : Nat)
    (hext : getExtension f = "ogg") :
    (playMusicStream st f (.ok ch rate total)).1.totalSamplesLeft = ((total * ch : Nat) : Int) := by
  simp [playMusicStream, hext, stb_vorbis_stream_length_in_samples,
    (bufferMusicStream_preserves _ _).2.2.1, (bufferMusicStream_preserves _ _).2.2.2.2.1]

/-- One refill-loop iteration whose refill succeeds: unqueue the front
buffer, refill it, re-queue it at the back. -/
lemma updateIter_normal (st : AudioState)
    (hfill : (bufferMusicStream
        { st with source := { st.source with queued := st.source.queued.tail } }
        (st.source.queued.headD 0)).1 = true) :
    updateIter st =
      (let b := st.source.queued.headD 0
       let fill := bufferMusicStream
         { st with source := { st.source with queued := st.source.queued.tail } } b
       ({ fill.2.1 with
          source := { fill.2.1.source with queued := fill.2.1.source.queued ++ [b] } },
        true,
        ALEvent.unqueueBuf b :: fill.2.2 ++ [ALEvent.queueBuffers [b]])) := by
  simp only [updateIter, hfill]
  simp

/-- One refill-loop iteration whose refill fails while looping: rewind the
decoder, reset the counter, refill from the start, then re-queue. -/
lemma updateIter_restart (st : AudioState)
    (hloop : st.loop = true)
    (hfill : (bufferMusicStream
        { st with source := { st.source with queued := st.source.queued.tail } }
        (st.source.queued.headD 0)).1 = false) :
    updateIter st =
      (let b := st.source.queued.headD 0
       let fill := bufferMusicStream
         { st with source := { st.source with queued := st.source.queued.tail } } b
       let st2 := { fill.2.1 with
         stream := stb_vorbis_seek_start fill.2.1.stream,
         totalSamplesLeft :=
           (stb_vorbis_stream_length_in_samples fill.2.1.stream * fill.2.1.channels : Nat) }
       let fill2 := bufferMusicStream st2 b
       ({ fill2.2.1 with
          source := { fill2.2.1.source with queued := fill2.2.1.source.queued ++ [b] } },
        fill2.1,
        ALEvent.unqueueBuf b :: (fill.2.2 ++ ALEvent.seekStart :: fill2.2.2) ++
          [ALEvent.queueBuffers [b]])) := by
  have hl2 : (bufferMusicStream
      { st with source := { st.source with queued := st.source.queued.tail } }
      (st.source.queued.headD 0)).2.1.loop = true := by
    rw [(bufferMusicStream_preserves _ _).2.1]
    exact hloop
  simp only [updateIter, hfill, hl2]
  simp

/-- One refill-loop iteration whose refill fails without looping: the buffer
is still re-queued and the iteration reports inactive. -/
lemma updateIter_noloop (st : AudioState)
    (hloop : st.loop = false)
    (hfill : (bufferMusicStream
        { st with source := { st.source with queued := st.source.queued.tail } }
        (st.source.queued.headD 0)).1 = false) :
    updateIter st =
      (let b := st.source.queued.headD 0
       let fill := bufferMusicStream
         { st with source := { st.source with queued := st.source.queued.tail } } b
       ({ fill.2.1 with
          source := { fill.2.1.source with queued := fill.2.1.source.queued ++ [b] } },
        false,
        ALEvent.unqueueBuf b :: fill.2.2 ++ [ALEvent.queueBuffers [b]])) := by
  have hl2 : (bufferMusicStream
      { st with source := { st.source with queued := st.source.queued.tail } }
      (st.source.queued.headD 0)).2.1.loop = false := by
    rw [(bufferMusicStream_preserves _ _).2.1]
    exact hloop
  simp only [updateIter, hfill, hl2]
  simp_all

/-- Fields of the module state that a refill-loop iteration never modifies. -/
lemma updateIter_preserves (st : AudioState) :
    (updateIter st).1.musicEnabled = st.musicEnabled ∧
    (updateIter st).1.loop = st.loop ∧
    (updateIter st).1.channels = st.channels ∧
    (updateIter st).1.stream.total = st.stream.total ∧
    (updateIter st).1.sampleRate = st.sampleRate := by
  simp only [updateIter]
  split_ifs with h1 h2
  · refine ⟨?_, ?_, ?_, ?_, ?_⟩ <;>
      simp [bufferMusicStream_preserves, (bufferMusicStream_preserves _ _).1,
        (bufferMusicStream_preserves _ _).2.1, (bufferMusicStream_preserves _ _).2.2.1,
        (bufferMusicStream_preserves _ _).2.2.2.1, (bufferMusicStream_preserves _ _).2.2.2.2.1,
        stb_vorbis_seek_start, stb_vorbis_stream_length_in_samples]
  · refine ⟨?_, ?_, ?_, ?_, ?_⟩ <;>
      simp [(bufferMusicStream_preserves _ _).1, (bufferMusicStream_preserves _ _).2.1,
        (bufferMusicStream_preserves _ _).2.2.1, (bufferMusicStream_preserves _ _).2.2.2.1,
        (bufferMusicStream_preserves _ _).2.2.2.2.1]
  · refine ⟨?_, ?_, ?_, ?_, ?_⟩ <;>
      simp [(bufferMusicStream_preserves _ _).1, (bufferMusicStream_preserves _ _).2.1,
        (bufferMusicStream_preserves _ _).2.2.1, (bufferMusicStream_preserves _ _).2.2.2.1,
        (bufferMusicStream_preserves _ _).2.2.2.2.1]

/-- On an exhausted non-looping enabled state an iteration reports inactive
and preserves exhaustion. -/
lemma updateIter_exhausted (st : AudioState)
    (he : st.musicEnabled = true) (hl : st.loop = false) (hx : exhausted st) :
    (updateIter st).2.1 = false ∧
    (updateIter st).1.musicEnabled = true ∧ (updateIter st).1.loop = false ∧
    exhausted (updateIter st).1 := by
  have hx1 : exhausted { st with source := { st.source with queued := st.source.queued.tail } } := hx
  have he1 : ({ st with source := { st.source with queued := st.source.queued.tail } }
      : AudioState).musicEnabled = true := he
  have hfl := bufferMusicStream_fail_state
    { st with source := { st.source with queued := st.source.queued.tail } }
    (st.source.queued.headD 0) he1 hx1
  have hfill : (bufferMusicStream
      { st with source := { st.source with queued := st.source.queued.tail } }
      (st.source.queued.headD 0)).1 = false := by rw [hfl]
  rw [updateIter_noloop st hl hfill]
  simp only [hfl]
  exact ⟨trivial, he, hl, hx⟩

/-- On an exhausted non-looping enabled state the whole refill loop reports
inactive (for at least one processed buffer) and preserves exhaustion. -/
lemma updateLoop_exhausted (p : Nat) :
    ∀ (st : AudioState) (a : Bool),
      st.musicEnabled = true → st.loop = false → exhausted st →
      (updateLoop st a p).2.1 = (if p = 0 then a else false) ∧
      (updateLoop st a p).1.musicEnabled = true ∧
      (updateLoop st a p).1.loop = false ∧
      exhausted (updateLoop st a p).1 := by
  induction p with
  | zero => intro st a he hl hx; exact ⟨rfl, he, hl, hx⟩
  | succ n ih =>
    intro st a he hl hx
    have hit := updateIter_exhausted st he hl hx
    have := ih (updateIter st).1 (updateIter st).2.1 hit.2.1 hit.2.2.1 hit.2.2.2
    simp only [updateLoop]
    rcases Nat.eq_zero_or_pos n with hn | hn
    · subst hn
      simp only [updateLoop] at this ⊢
      exact ⟨hit.1, hit.2.1, hit.2.2.1, hit.2.2.2⟩
    · have hne : n ≠ 0 := by omega
      simp only [hne, if_false] at this
      refine ⟨?_, this.2.1, this.2.2.1, this.2.2.2⟩
      simp only [Nat.succ_ne_zero, if_false]
      exact this.1

/-- A mono or stereo channel count gives a positive per-call short budget. -/
lemma streamFeeds_div (st : AudioState) (h : streamFeeds st) :
    0 < MUSIC_BUFFER_SIZE / st.channels := by
  rcases h.2.2.2 with hc | hc <;> rw [hc] <;> decide

/-- From a feeding state every iteration reports active and feeding persists:
a failed refill is followed by a successful refill from the start. -/
lemma updateIter_active (st : AudioState) (h : streamFeeds st) :
    (updateIter st).2.1 = true ∧ streamFeeds (updateIter st).1 := by
  have hpres := updateIter_preserves st
  have hfeeds1 : streamFeeds (updateIter st).1 := by
    refine ⟨?_, ?_, ?_, ?_⟩
    · rw [hpres.1]; exact h.1
    · rw [hpres.2.1]; exact h.2.1
    · rw [hpres.2.2.2.1]; exact h.2.2.1
    · rw [hpres.2.2.1]; exact h.2.2.2
  refine ⟨?_, hfeeds1⟩
  by_cases hfill : (bufferMusicStream
      { st with source := { st.source with queued := st.source.queued.tail } }
      (st.source.queued.headD 0)).1 = true
  · rw [updateIter_normal st hfill]
  · have hfill2 : (bufferMusicStream
        { st with source := { st.source with queued := st.source.queued.tail } }
        (st.source.queued.headD 0)).1 = false := by
      revert hfill; cases (bufferMusicStream
        { st with source := { st.source with queued := st.source.queued.tail } }
        (st.source.queued.headD 0)).1 <;> simp
    rw [updateIter_restart st h.2.1 hfill2]
    simp only
    have he1 : ({ st with source := { st.source with queued := st.source.queued.tail } }
        : AudioState).musicEnabled = true := h.1
    have hx1 := bufferMusicStream_fail_inv _ (st.source.queued.headD 0) he1 hfill2
    have hfl := bufferMusicStream_fail_state _ (st.source.queued.headD 0) he1 hx1
    rw [hfl]
    set st2 : AudioState := { ({ st with source := { st.source with queued := st.source.queued.tail } } : AudioState) with
      stream := stb_vorbis_seek_start ({ st with source := { st.source with queued := st.source.queued.tail } } : AudioState).stream,
      totalSamplesLeft :=
        (stb_vorbis_stream_length_in_samples ({ st with source := { st.source with queued := st.source.queued.tail } } : AudioState).stream *
          ({ st with source := { st.source with queued := st.source.queued.tail } } : AudioState).channels : Nat) } with hst2
    have he2 : st2.musicEnabled = true := h.1
    have hp2 : st2.stream.pos < st2.stream.total := by
      have : st2.stream.pos = 0 := rfl
      rw [this]
      exact h.2.2.1
    have hch2 : 0 < MUSIC_BUFFER_SIZE / st2.channels := streamFeeds_div st h
    exact bufferMusicStream_succeeds st2 (st.source.queued.headD 0) he2 hp2 hch2

/-- From a feeding state the whole refill loop reports active. -/
lemma updateLoop_active (p : Nat) :
    ∀ st : AudioState, streamFeeds st →
      (updateLoop st true p).2.1 = true ∧ streamFeeds (updateLoop st true p).1 := by
  induction p with
  | zero => intro st h; exact ⟨rfl, h⟩
  | succ n ih =>
    intro st h
    have hit := updateIter_active st h
    simp only [updateLoop, hit.1]
    exact ih (updateIter st).1 hit.2

/-- The refill loop never modifies the enabled or loop flags. -/
lemma updateLoop_preserves (p : Nat) :
    ∀ (st : AudioState) (a : Bool),
      (updateLoop st a p).1.musicEnabled = st.musicEnabled ∧
      (updateLoop st a p).1.loop = st.loop := by
  induction p with
  | zero => intro st a; exact ⟨rfl, rfl⟩
  | succ n ih =>
    intro st a
    simp only [updateLoop]
    have hp := updateIter_preserves st
    have := ih (updateIter st).1 (updateIter st).2.1
    exact ⟨this.1.trans hp.1, this.2.trans hp.2.1⟩

/-- When the refill loop reports active, `UpdateMusicStream` leaves the
source playing (restarting it if it was found stopped). -/
lemma updateMusicStream_plays (st : AudioState) (p : Nat)
    (he : st.musicEnabled = true)
    (ha : (updateLoop st true p).2.1 = true) :
    (updateMusicStream st p).1.source.playing = true := by
  by_cases hp : (updateLoop st true p).1.source.playing = false
  · simp [updateMusicStream, he, ha, hp]
  · simp only [Bool.not_eq_false] at hp
    simp [updateMusicStream, he, ha, hp]

/-- On an exhausted non-looping enabled state, `UpdateMusicStream` with at
least one processed buffer stops and releases the music stream. -/
lemma updateMusicStream_stops (st : AudioState) (p : Nat)
    (he : st.musicEnabled = true) (hl : st.loop = false) (hp : 0 < p)
    (hx : exhausted st) :
    (updateMusicStream st p).1.musicEnabled = false ∧
    (updateMusicStream st p).1.source.playing = false ∧
    (updateMusicStream st p).1.source.queued = [] := by
  have hL := updateLoop_exhausted p st true he hl hx
  have hne : ¬(p = 0) := by omega
  simp only [hne, if_false] at hL
  simp [updateMusicStream, he, hL.1, hL.2.1, stopMusicStream, emptyMusicStream]

/-- From a feeding state `UpdateMusicStream` never stops the music stream. -/
lemma updateMusicStream_keeps_enabled (st : AudioState) (p : Nat)
    (h : streamFeeds st) :
    (updateMusicStream st p).1.musicEnabled = true := by
  have hA := updateLoop_active p st h
  by_cases hp : (updateLoop st true p).1.source.playing = false
  · simp [updateMusicStream, h.1, hA.1, hp, hA.2.1]
  · simp only [Bool.not_eq_false] at hp
    simp [updateMusicStream, h.1, hA.1, hp, hA.2.1]

/-- The loop flag is never modified by `UpdateMusicStream`. -/
lemma updateMusicStream_keeps_loop (st : AudioState) (p : Nat) :
    (updateMusicStream st p).1.loop = st.loop := by
  by_cases he : st.musicEnabled = true
  · have hP := updateLoop_preserves p st true
    by_cases ha : (updateLoop st true p).2.1 = true
    · by_cases hp : (updateLoop st true p).1.source.playing = false
      · simp [updateMusicStream, he, ha, hp, hP.2]
      · simp only [Bool.not_eq_false] at hp
        simp [updateMusicStream, he, ha, hp, hP.2]
    · simp only [Bool.not_eq_true] at ha
      by_cases hE : (updateLoop st true p).1.musicEnabled = true
      · simp [updateMusicStream, he, ha, stopMusicStream, emptyMusicStream, hE, hP.2]
      · simp only [Bool.not_eq_true] at hE
        simp [updateMusicStream, he, ha, stopMusicStream, hE, hP.2]
  · simp only [Bool.not_eq_true] at he
    simp [updateMusicStream, he]

/-- Reading a record header back from its serialization yields the header and
leaves the position just past it. -/
lemma readResInfoHeader_encode (h : ResInfoHeader) (rest : List Nat)
    (hid : h.id < 65536) (ht : h.rtype < 256) (hs : h.size < 4294967296)
    (hss : h.srcSize < 4294967296) :
    readResInfoHeader (encodeResInfoHeader h ++ rest) = (h, rest) := by
  obtain ⟨i, t, sz, ss⟩ := h
  simp only at hid ht hs hss
  simp only [encodeResInfoHeader, readResInfoHeader, List.cons_append, List.nil_append,
    List.getD_cons_zero, List.getD_cons_succ, List.drop_succ_cons, List.drop_zero,
    Prod.mk.injEq, ResInfoHeader.mk.injEq]
  refine ⟨⟨?_, ?_, ?_, ?_⟩, trivial⟩ <;> omega

/-- Scanning serialized well-formed records none of which matches the
requested id visits exactly their headers, in order, skipping each record's
parameter bytes and data, and ends just past the records. -/
lemma scanResRecords_skips (f : String) (resId : Nat) (records : List ResRecord) :
    ∀ (rest : List Nat) (found : Bool) (sound : Sound),
      (∀ r ∈ records, wellFormedRecord r) → (∀ r ∈ records, r.id ≠ resId) →
      scanResRecords f resId records.length ((records.map encodeResRecord).flatten ++ rest)
          found sound =
        ⟨rest, found, sound, [], records.map recordHeader⟩ := by
  induction records with
  | nil => intro rest found sound _ _; simp [scanResRecords]
  | cons r rs ih =>
    intro rest found sound hwf hmiss
    have hw := hwf r (List.mem_cons_self r rs)
    have hm := hmiss r (List.mem_cons_self r rs)
    have hbytes : ((r :: rs).map encodeResRecord).flatten ++ rest =
        encodeResInfoHeader (recordHeader r) ++
          (r.params ++ (r.data ++ ((rs.map encodeResRecord).flatten ++ rest))) := by
      simp [encodeResRecord, List.append_assoc]
    have hhdr := readResInfoHeader_encode (recordHeader r)
      (r.params ++ (r.data ++ ((rs.map encodeResRecord).flatten ++ rest)))
      hw.1 hw.2.1 hw.2.2.2.1 hw.2.2.2.2
    have hid : (recordHeader r).id ≠ resId := hm
    simp only [List.length_cons, scanResRecords, hbytes, hhdr, hid, if_false]
    have hdrop1 : (r.params ++ (r.data ++ ((rs.map encodeResRecord).flatten ++ rest))).drop
        (paramBytes (recordHeader r).rtype) = r.data ++ ((rs.map encodeResRecord).flatten ++ rest) := by
      have : paramBytes (recordHeader r).rtype = r.params.length := hw.2.2.1.symm
      rw [this]
      exact List.drop_left _ _
    have hdrop2 : (r.data ++ ((rs.map encodeResRecord).flatten ++ rest)).drop
        (recordHeader r).size = (rs.map encodeResRecord).flatten ++ rest := by
      have : (recordHeader r).size = r.data.length := rfl
      rw [this]
      exact List.drop_left _ _
    rw [hdrop1, hdrop2]
    rw [ih rest found sound (fun x hx => hwf x (List.mem_cons_of_mem r hx))
      (fun x hx => hmiss x (List.mem_cons_of_mem r hx))]
    simp

/-- A successful refill of buffer 0 records uploaded data for it. -/
lemma bufferMusicStream_filled0 (st : AudioState)
    (h : (bufferMusicStream st 0).1 = true) :
    (bufferMusicStream st 0).2.1.bufData.1 ≠ none := by
  revert h
  simp only [bufferMusicStream, setBufData]
  split_ifs <;> simp_all

/-- A successful refill of buffer 1 records uploaded data for it. -/
lemma bufferMusicStream_filled1 (st : AudioState)
    (h : (bufferMusicStream st 1).1 = true) :
    (bufferMusicStream st 1).2.1.bufData.2 ≠ none := by
  revert h
  simp only [bufferMusicStream, setBufData]
  split_ifs <;> simp_all

/-- A refill that obtains no data uploads nothing: the buffer table is left
exactly as it was. -/
lemma bufferMusicStream_unfilled (st : AudioState) (b : Nat)
    (h : (bufferMusicStream st b).1 = false) :
    (bufferMusicStream st b).2.1.bufData = st.bufData := by
  revert h
  simp only [bufferMusicStream, setBufData]
  split_ifs <;> simp_all

/-- Decomposition of a successful `PlayMusicStream`: stop-and-release first,
then source and buffer generation, the two `BufferMusicStream` fill attempts
in turn, queueing of both buffers, playback start, and the final counter
assignment. -/
lemma playMusicStream_ok_eq (st : AudioState) (f : String) (ch rate total : Nat)
    (hext : getExtension f = "ogg") :
    playMusicStream st f (.ok ch rate total) =
      (let stop := stopMusicStream st
       let st1 : AudioState :=
         { stop.1 with
           stream := { total := total, pos := 0 }, streamOpen := true,
           channels := ch, sampleRate := rate,
           format := if ch = 2 then ALFormat.stereo16 else ALFormat.mono16,
           loop := true, musicEnabled := true,
           source := { queued := [], playing := false, alive := true },
           buffersAlive := true, bufData := (none, none) }
       let f0 := bufferMusicStream st1 0
       let f1 := bufferMusicStream f0.2.1 1
       ({ f1.2.1 with
          source := { f1.2.1.source with queued := [0, 1], playing := true }
          totalSamplesLeft :=
            (stb_vorbis_stream_length_in_samples f1.2.1.stream * f1.2.1.channels : Nat) },
        stop.2 ++ [ALEvent.genSource, ALEvent.genBuffers] ++ f0.2.2 ++ f1.2.2 ++
          [ALEvent.queueBuffers [0, 1], ALEvent.sourcePlay],
        [])) := by
  simp only [playMusicStream, hext, if_true]

/-- A successful `PlayMusicStream` leaves music enabled, both buffers queued
and the source playing, whatever the two fill attempts obtained. -/
lemma playMusicStream_ok_started (st : AudioState) (f : String) (ch rate total : Nat)
    (hext : getExtension f = "ogg") :
    (playMusicStream st f (.ok ch rate total)).1.musicEnabled = true ∧
    (playMusicStream st f (.ok ch rate total)).1.source.queued = [0, 1] ∧
    (playMusicStream st f (.ok ch rate total)).1.source.playing = true := by
  refine ⟨?_, ?_, ?_⟩ <;>
    simp [playMusicStream, hext, (bufferMusicStream_preserves _ _).1]

/-- C1: for every `UpdateMusicStream` call while music is enabled, each
processed buffer is unqueued from the front of the queue, refilled from the
decoder via `BufferMusicStream`, and re-queued; when the refill obtains no data
and the loop flag is set, the decoder is rewound, `totalSamplesLeft` is reset
to the stream length in samples times the channel count, and the buffer is
refilled from the start before being re-queued; when the refill obtains no
data and the stream does not loop, the music stream is stopped by the same
call. -/
theorem claim1_processed_buffers (sta stb stc : AudioState) (p : Nat)
    (_hea : sta.musicEnabled = true)
    (hfa : (bufferMusicStream
        { sta with source := { sta.source with queued := sta.source.queued.tail } }
        (sta.source.queued.headD 0)).1 = true)
    (_heb : stb.musicEnabled = true) (hlb : stb.loop = true)
    (hfb : (bufferMusicStream
        { stb with source := { stb.source with queued := stb.source.queued.tail } }
        (stb.source.queued.headD 0)).1 = false)
    (hec : stc.musicEnabled = true) (hlc : stc.loop = false) (hpc : 0 < p)
    (hfc : (bufferMusicStream
        { stc with source := { stc.source with queued := stc.source.queued.tail } }
        (stc.source.queued.headD 0)).1 = false) :
    (updateIter sta =
      (let b := sta.source.queued.headD 0
       let fill := bufferMusicStream
         { sta with source := { sta.source with queued := sta.source.queued.tail } } b
       ({ fill.2.1 with
          source := { fill.2.1.source with queued := fill.2.1.source.queued ++ [b] } },
        true,
        ALEvent.unqueueBuf b :: fill.2.2 ++ [ALEvent.queueBuffers [b]]))) ∧
    (updateIter stb =
      (let b := stb.source.queued.headD 0
       let fill := bufferMusicStream
         { stb with source := { stb.source with queued := stb.source.queued.tail } } b
       let st2 := { fill.2.1 with
         stream := stb_vorbis_seek_start fill.2.1.stream,
         totalSamplesLeft :=
           (stb_vorbis_stream_length_in_samples fill.2.1.stream * fill.2.1.channels : Nat) }
       let fill2 := bufferMusicStream st2 b
       ({ fill2.2.1 with
          source := { fill2.2.1.source with queued := fill2.2.1.source.queued ++ [b] } },
        fill2.1,
        ALEvent.unqueueBuf b :: (fill.2.2 ++ ALEvent.seekStart :: fill2.2.2) ++
          [ALEvent.queueBuffers [b]]))) ∧
    ((updateMusicStream stc p).1.musicEnabled = false ∧
     (updateMusicStream stc p).1.source.playing = false ∧
     (updateMusicStream stc p).1.source.queued = []) := by
  refine ⟨updateIter_normal sta hfa, updateIter_restart stb hlb hfb, ?_⟩
  have hec1 : ({ stc with source := { stc.source with queued := stc.source.queued.tail } }
      : AudioState).musicEnabled = true := hec
  have hx : exhausted stc :=
    bufferMusicStream_fail_inv
      { stc with source := { stc.source with queued := stc.source.queued.tail } }
      (stc.source.queued.headD 0) hec1 hfc
  exact updateMusicStream_stops stc p hec hlc hpc hx

/-- Witness for C1 at concrete states with one processed buffer. -/
theorem claim1_witness :
    (updateIter sampleFreshState =
      (let b := sampleFreshState.source.queued.headD 0
       let fill := bufferMusicStream
         { sampleFreshState with
            source := { sampleFreshState.source with
              queued := sampleFreshState.source.queued.tail } } b
       ({ fill.2.1 with
          source := { fill.2.1.source with queued := fill.2.1.source.queued ++ [b] } },
        true,
        ALEvent.unqueueBuf b :: fill.2.2 ++ [ALEvent.queueBuffers [b]]))) ∧
    (updateIter sampleLoopEndState =
      (let b := sampleLoopEndState.source.queued.headD 0
       let fill := bufferMusicStream
         { sampleLoopEndState with
            source := { sampleLoopEndState.source with
              queued := sampleLoopEndState.source.queued.tail } } b
       let st2 := { fill.2.1 with
         stream := stb_vorbis_seek_start fill.2.1.stream,
         totalSamplesLeft :=
           (stb_vorbis_stream_length_in_samples fill.2.1.stream * fill.2.1.channels : Nat) }
       let fill2 := bufferMusicStream st2 b
       ({ fill2.2.1 with
          source := { fill2.2.1.source with queued := fill2.2.1.source.queued ++ [b] } },
        fill2.1,
        ALEvent.unqueueBuf b :: (fill.2.2 ++ ALEvent.seekStart :: fill2.2.2) ++
          [ALEvent.queueBuffers [b]]))) ∧
    ((updateMusicStream sampleNoLoopEndState 1).1.musicEnabled = false ∧
     (updateMusicStream sampleNoLoopEndState 1).1.source.playing = false ∧
     (updateMusicStream sampleNoLoopEndState 1).1.source.queued = []) :=
  claim1_processed_buffers sampleFreshState sampleLoopEndState sampleNoLoopEndState 1
    (by decide) (by decide) (by decide) (by decide) (by decide) (by decide) (by decide)
    (by decide) (by decide)

/-- C2 counterexample: an ogg stream of 10 samples opens successfully, yet
the second generated buffer is left holding no decoded data (the decoder is
exhausted by the first fill), refuting "two buffers are generated and filled
with decoded data" as stated. -/
theorem claim2_counterexample :
    (playMusicStream initialAudioState "music.ogg" (OggOpen.ok 1 8000 10)).1.musicEnabled = true ∧
    (playMusicStream initialAudioState "music.ogg" (OggOpen.ok 1 8000 10)).1.bufData.2 = none := by
  decide

/-- C2 (amended): for every `PlayMusicStream` call on an "ogg" file whose
stream opens successfully — any channel count, any length — any current music
is first stopped and released (the event trace begins with the
`StopMusicStream` events), exactly two buffers are generated and a fill from
the decoder is attempted on each in turn, both buffers are queued, playback is
started, and the remaining-sample counter is set to the stream length in
samples times the channel count; a buffer for which the decoder returns data
is filled and a buffer for which it returns none is left unfilled; for a mono
or stereo stream holding at least two buffers' worth of data, both buffers are
filled completely with decoded data. -/
theorem claim2_play (st : AudioState) (f : String) (ch rate total : Nat)
    (stx : AudioState) (st' : AudioState) (f' : String) (ch' rate' total' : Nat)
    (hext : getExtension f = "ogg")
    (hext' : getExtension f' = "ogg") (hch' : ch' = 1 ∨ ch' = 2)
    (hdata' : 2 * (MUSIC_BUFFER_SIZE / ch') ≤ total') :
    (playMusicStream st f (.ok ch rate total) =
      (let stop := stopMusicStream st
       let st1 : AudioState :=
         { stop.1 with
           stream := { total := total, pos := 0 }, streamOpen := true,
           channels := ch, sampleRate := rate,
           format := if ch = 2 then ALFormat.stereo16 else ALFormat.mono16,
           loop := true, musicEnabled := true,
           source := { queued := [], playing := false, alive := true },
           buffersAlive := true, bufData := (none, none) }
       let f0 := bufferMusicStream st1 0
       let f1 := bufferMusicStream f0.2.1 1
       ({ f1.2.1 with
          source := { f1.2.1.source with queued := [0, 1], playing := true }
          totalSamplesLeft :=
            (stb_vorbis_stream_length_in_samples f1.2.1.stream * f1.2.1.channels : Nat) },
        stop.2 ++ [ALEvent.genSource, ALEvent.genBuffers] ++ f0.2.2 ++ f1.2.2 ++
          [ALEvent.queueBuffers [0, 1], ALEvent.sourcePlay],
        []))) ∧
    ((playMusicStream st f (.ok ch rate total)).1.musicEnabled = true) ∧
    ((playMusicStream st f (.ok ch rate total)).1.loop = true) ∧
    ((playMusicStream st f (.ok ch rate total)).1.source.queued = [0, 1]) ∧
    ((playMusicStream st f (.ok ch rate total)).1.source.playing = true) ∧
    ((playMusicStream st f (.ok ch rate total)).1.totalSamplesLeft =
      ((total * ch : Nat) : Int)) ∧
    ((bufferMusicStream stx 0).1 = true → (bufferMusicStream stx 0).2.1.bufData.1 ≠ none) ∧
    ((bufferMusicStream stx 1).1 = true → (bufferMusicStream stx 1).2.1.bufData.2 ≠ none) ∧
    ((bufferMusicStream stx 0).1 = false →
      (bufferMusicStream stx 0).2.1.bufData = stx.bufData) ∧
    ((bufferMusicStream stx 1).1 = false →
      (bufferMusicStream stx 1).2.1.bufData = stx.bufData) ∧
    (playMusicStream st' f' (.ok ch' rate' total') =
      (⟨true, ⟨total', MUSIC_BUFFER_SIZE / ch' + MUSIC_BUFFER_SIZE / ch'⟩, true, ch', rate',
        (if ch' = 2 then ALFormat.stereo16 else ALFormat.mono16), ((total' * ch' : Nat) : Int),
        true, ⟨[0, 1], true, true⟩, true,
        (some (0, MUSIC_BUFFER_SIZE), some (MUSIC_BUFFER_SIZE / ch', MUSIC_BUFFER_SIZE))⟩,
       (stopMusicStream st').2 ++ [ALEvent.genSource, ALEvent.genBuffers,
         ALEvent.bufferData 0 0 MUSIC_BUFFER_SIZE,
         ALEvent.bufferData 1 (MUSIC_BUFFER_SIZE / ch') MUSIC_BUFFER_SIZE,
         ALEvent.queueBuffers [0, 1], ALEvent.sourcePlay],
       [])) := by
  refine ⟨playMusicStream_ok_eq st f ch rate total hext,
    (playMusicStream_ok_started st f ch rate total hext).1,
    playMusicStream_ok_loop st f ch rate total hext,
    (playMusicStream_ok_started st f ch rate total hext).2.1,
    (playMusicStream_ok_started st f ch rate total hext).2.2,
    playMusicStream_ok_counter st f ch rate total hext,
    bufferMusicStream_filled0 stx,
    bufferMusicStream_filled1 stx,
    bufferMusicStream_unfilled stx 0,
    bufferMusicStream_unfilled stx 1,
    ?_⟩
  have hpos : 0 < MUSIC_BUFFER_SIZE / ch' := by
    rcases hch' with h | h <;> subst h <;> decide
  have hrem0 : MUSIC_BUFFER_SIZE / ch' ≤
      (({ total := total', pos := 0 } : VorbisStream)).total -
        (({ total := total', pos := 0 } : VorbisStream)).pos := by
    simp; omega
  have d0 := musicDecodeLoop_full { total := total', pos := 0 } ch' hch' hrem0
  have hrem1 : MUSIC_BUFFER_SIZE / ch' ≤
      (({ total := total', pos := MUSIC_BUFFER_SIZE / ch' } : VorbisStream)).total -
        (({ total := total', pos := MUSIC_BUFFER_SIZE / ch' } : VorbisStream)).pos := by
    simp; omega
  have d1 := musicDecodeLoop_full { total := total', pos := MUSIC_BUFFER_SIZE / ch' } ch' hch' hrem1
  have h0 : (0 : Nat) < MUSIC_BUFFER_SIZE := by decide
  simp [playMusicStream, hext', bufferMusicStream, d0, d1, setBufData, h0,
    stb_vorbis_stream_length_in_samples]

/-- Witness for C2: the universal clauses at a concrete 3-channel 7-sample
stream (outside the full-buffer case) and the full-fill equation at a concrete
mono stream of 65536 samples. -/
theorem claim2_witness :
    (playMusicStream initialAudioState "music.ogg" (.ok 3 8000 7) =
      (let stop := stopMusicStream initialAudioState
       let st1 : AudioState :=
         { stop.1 with
           stream := { total := 7, pos := 0 }, streamOpen := true,
           channels := 3, sampleRate := 8000,
           format := if 3 = 2 then ALFormat.stereo16 else ALFormat.mono16,
           loop := true, musicEnabled := true,
           source := { queued := [], playing := false, alive := true },
           buffersAlive := true, bufData := (none, none) }
       let f0 := bufferMusicStream st1 0
       let f1 := bufferMusicStream f0.2.1 1
       ({ f1.2.1 with
          source := { f1.2.1.source with queued := [0, 1], playing := true }
          totalSamplesLeft :=
            (stb_vorbis_stream_length_in_samples f1.2.1.stream * f1.2.1.channels : Nat) },
        stop.2 ++ [ALEvent.genSource, ALEvent.genBuffers] ++ f0.2.2 ++ f1.2.2 ++
          [ALEvent.queueBuffers [0, 1], ALEvent.sourcePlay],
        []))) ∧
    ((playMusicStream initialAudioState "music.ogg" (.ok 3 8000 7)).1.musicEnabled = true) ∧
    ((playMusicStream initialAudioState "music.ogg" (.ok 3 8000 7)).1.loop = true) ∧
    ((playMusicStream initialAudioState "music.ogg" (.ok 3 8000 7)).1.source.queued = [0, 1]) ∧
    ((playMusicStream initialAudioState "music.ogg" (.ok 3 8000 7)).1.source.playing = true) ∧
    ((playMusicStream initialAudioState "music.ogg" (.ok 3 8000 7)).1.totalSamplesLeft =
      ((7 * 3 : Nat) : Int)) ∧
    ((bufferMusicStream sampleFreshState 0).1 = true →
      (bufferMusicStream sampleFreshState 0).2.1.bufData.1 ≠ none) ∧
    ((bufferMusicStream sampleFreshState 1).1 = true →
      (bufferMusicStream sampleFreshState 1).2.1.bufData.2 ≠ none) ∧
    ((bufferMusicStream sampleFreshState 0).1 = false →
      (bufferMusicStream sampleFreshState 0).2.1.bufData = sampleFreshState.bufData) ∧
    ((bufferMusicStream sampleFreshState 1).1 = false →
      (bufferMusicStream sampleFreshState 1).2.1.bufData = sampleFreshState.bufData) ∧
    (playMusicStream initialAudioState "music.ogg" (.ok 1 8000 65536) =
      (⟨true, ⟨65536, MUSIC_BUFFER_SIZE / 1 + MUSIC_BUFFER_SIZE / 1⟩, true, 1, 8000,
        (if 1 = 2 then ALFormat.stereo16 else ALFormat.mono16), ((65536 * 1 : Nat) : Int),
        true, ⟨[0, 1], true, true⟩, true,
        (some (0, MUSIC_BUFFER_SIZE), some (MUSIC_BUFFER_SIZE / 1, MUSIC_BUFFER_SIZE))⟩,
       (stopMusicStream initialAudioState).2 ++ [ALEvent.genSource, ALEvent.genBuffers,
         ALEvent.bufferData 0 0 MUSIC_BUFFER_SIZE,
         ALEvent.bufferData 1 (MUSIC_BUFFER_SIZE / 1) MUSIC_BUFFER_SIZE,
         ALEvent.queueBuffers [0, 1], ALEvent.sourcePlay],
       [])) :=
  claim2_play initialAudioState "music.ogg" 3 8000 7 sampleFreshState
    initialAudioState "music.ogg" 1 8000 65536
    (by decide) (by decide) (by decide) (by decide)

/-- C3: while music is enabled and decoded data remains — the refill loop
reports active, or the stream loops and is nonempty (mono or stereo) — no
`UpdateMusicStream` call leaves the source non-playing: the source is playing
when the call returns. -/
theorem claim3_playback_restarted (st : AudioState) (p : Nat)
    (he : st.musicEnabled = true)
    (h : (updateLoop st true p).2.1 = true ∨
         (st.loop = true ∧ 0 < st.stream.total ∧ (st.channels = 1 ∨ st.channels = 2))) :
    (updateMusicStream st p).1.source.playing = true := by
  rcases h with h | h
  · exact updateMusicStream_plays st p he h
  · exact updateMusicStream_plays st p he
      (updateLoop_active p st ⟨he, h.1, h.2.1, h.2.2⟩).1

/-- Witness for C3 at a looping stream found stopped at end of data. -/
theorem claim3_witness :
    (updateMusicStream sampleLoopEndState 1).1.source.playing = true :=
  claim3_playback_restarted sampleLoopEndState 1 (by decide)
    (Or.inr (by decide))

/-- C4: `StopMusicStream` while music is enabled stops the source, unqueues
every queued buffer, deletes the source and the buffers, closes the decoder
and clears the flag; while music is not enabled it only clears the flag and
releases nothing, so a second consecutive call performs no release. -/
theorem claim4_stop_releases (st st2 : AudioState)
    (he : st.musicEnabled = true) (he2 : st2.musicEnabled = false) :
    (stopMusicStream st =
      ({ st with
          musicEnabled := false
          streamOpen := false
          buffersAlive := false
          source := { queued := [], playing := false, alive := false } },
       ALEvent.sourceStop :: st.source.queued.map ALEvent.unqueueBuf ++
         [ALEvent.deleteSource, ALEvent.deleteBuffers, ALEvent.vorbisClose])) ∧
    (stopMusicStream st2 = ({ st2 with musicEnabled := false }, [])) ∧
    (stopMusicStream (stopMusicStream st).1 = ((stopMusicStream st).1, [])) := by
  refine ⟨stopMusicStream_enabled st he, stopMusicStream_disabled st2 he2, ?_⟩
  have h3 := stopMusicStream_disabled (stopMusicStream st).1 (stopMusicStream_musicEnabled st)
  rw [h3, stopMusicStream_enabled st he]

/-- Witness for C4 at concrete enabled and disabled states. -/
theorem claim4_witness :
    (stopMusicStream sampleFreshState =
      ({ sampleFreshState with
          musicEnabled := false
          streamOpen := false
          buffersAlive := false
          source := { queued := [], playing := false, alive := false } },
       ALEvent.sourceStop :: sampleFreshState.source.queued.map ALEvent.unqueueBuf ++
         [ALEvent.deleteSource, ALEvent.deleteBuffers, ALEvent.vorbisClose])) ∧
    (stopMusicStream initialAudioState = ({ initialAudioState with musicEnabled := false }, [])) ∧
    (stopMusicStream (stopMusicStream sampleFreshState).1 =
      ((stopMusicStream sampleFreshState).1, [])) :=
  claim4_stop_releases sampleFreshState initialAudioState (by decide) (by decide)

/-- C5: on every loading failure — file not found, bad or unrecognized
header, unrecognized extension — in `LoadSound`, `LoadWAV`, `LoadSoundFromRES`
and `PlayMusicStream`, a message is logged and the function returns normally
with no error value, the result left in its uninitialized or default state. -/
theorem claim5_failures_logged (f1 f2 f3 f4 : String) (st st3 : AudioState)
    (w : Option WavFileContent) (ogg : OggFileInfo) (o : OggOpen)
    (cr cf cd : WavFileContent) (resId : Nat) (bs : List Nat)
    (h1w : getExtension f1 ≠ "wav") (h1o : getExtension f1 ≠ "ogg")
    (h3 : getExtension f3 = "ogg")
    (hcr : cr.chunkID.c0 ≠ 'R' ∨ cr.chunkID.c1 ≠ 'I' ∨ cr.chunkID.c2 ≠ 'F' ∨
      cr.chunkID.c3 ≠ 'F' ∨ cr.format.c0 ≠ 'W' ∨ cr.format.c1 ≠ 'A' ∨
      cr.format.c2 ≠ 'V' ∨ cr.format.c3 ≠ 'E')
    (hcf1 : cf.chunkID = ⟨'R', 'I', 'F', 'F'⟩) (hcf2 : cf.format = ⟨'W', 'A', 'V', 'E'⟩)
    (hcf3 : cf.fmtID.c0 ≠ 'f' ∨ cf.fmtID.c1 ≠ 'm' ∨ cf.fmtID.c2 ≠ 't' ∨ cf.fmtID.c3 ≠ ' ')
    (hcd1 : cd.chunkID = ⟨'R', 'I', 'F', 'F'⟩) (hcd2 : cd.format = ⟨'W', 'A', 'V', 'E'⟩)
    (hcd3 : cd.fmtID = ⟨'f', 'm', 't', ' '⟩)
    (hcd4 : cd.dataID.c0 ≠ 'd' ∨ cd.dataID.c1 ≠ 'a' ∨ cd.dataID.c2 ≠ 't' ∨
      cd.dataID.c3 ≠ 'a')
    (hbs : bs.getD 0 0 ≠ 'r'.toNat ∧ bs.getD 1 0 ≠ 'R'.toNat ∧
      bs.getD 2 0 ≠ 'E'.toNat ∧ bs.getD 3 0 ≠ 'S'.toNat) :
    (loadSound f1 w ogg = (uninitSound, [soundExtensionMsg f1])) ∧
    (loadWAV f2 none = (uninitWave, [wavOpenFailMsg f2])) ∧
    (loadWAV f2 (some cr) = (uninitWave, [wavRiffMsg f2])) ∧
    (loadWAV f2 (some cf) = (uninitWave, [wavFmtMsg f2])) ∧
    (loadWAV f2 (some cd) = (uninitWave, [wavDataMsg f2])) ∧
    (playMusicStream st f1 o = (st, [], [musicExtensionMsg f1])) ∧
    (playMusicStream st3 f3 OggOpen.fail =
      ({ (stopMusicStream st3).1 with streamOpen := false },
       (stopMusicStream st3).2, [oggOpenFailMsg f3])) ∧
    ((playMusicStream st3 f3 OggOpen.fail).1.musicEnabled = false) ∧
    (loadSoundFromRES f4 none resId =
      ⟨uninitSound, [resOpenFailMsg f4, resNotFoundMsg f4 resId], []⟩) ∧
    (loadSoundFromRES f4 (some bs) resId =
      ⟨uninitSound, [resInvalidFileMsg f4, resNotFoundMsg f4 resId], []⟩) := by
  refine ⟨?_, rfl, ?_, ?_, ?_, ?_, ?_, ?_, rfl, ?_⟩
  · simp [loadSound, h1w, h1o]
  · simp only [loadWAV]
    rw [if_pos hcr]
  · simp only [loadWAV, hcf1, hcf2]
    rw [if_neg (by simp), if_pos hcf3]
  · simp only [loadWAV, hcd1, hcd2, hcd3]
    rw [if_neg (by simp), if_neg (by simp), if_pos hcd4]
  · simp [playMusicStream, h1o]
  · simp [playMusicStream, h3]
  · simp [playMusicStream, h3, stopMusicStream_musicEnabled]
  · simp only [loadSoundFromRES]
    rw [if_pos hbs]

/-- Witness for C5 at concrete failing inputs for every failure kind. -/
theorem claim5_witness :
    (loadSound "beep.xyz" none ⟨1, 8000, 10⟩ =
      (uninitSound, [soundExtensionMsg "beep.xyz"])) ∧
    (loadWAV "b.wav" none = (uninitWave, [wavOpenFailMsg "b.wav"])) ∧
    (loadWAV "b.wav" (some sampleBadRiff) = (uninitWave, [wavRiffMsg "b.wav"])) ∧
    (loadWAV "b.wav" (some sampleBadFmt) = (uninitWave, [wavFmtMsg "b.wav"])) ∧
    (loadWAV "b.wav" (some sampleBadData) = (uninitWave, [wavDataMsg "b.wav"])) ∧
    (playMusicStream initialAudioState "beep.xyz" OggOpen.fail =
      (initialAudioState, [], [musicExtensionMsg "beep.xyz"])) ∧
    (playMusicStream sampleFreshState "m.ogg" OggOpen.fail =
      ({ (stopMusicStream sampleFreshState).1 with streamOpen := false },
       (stopMusicStream sampleFreshState).2, [oggOpenFailMsg "m.ogg"])) ∧
    ((playMusicStream sampleFreshState "m.ogg" OggOpen.fail).1.musicEnabled = false) ∧
    (loadSoundFromRES "r.rres" none 1 =
      ⟨uninitSound, [resOpenFailMsg "r.rres", resNotFoundMsg "r.rres" 1], []⟩) ∧
    (loadSoundFromRES "r.rres" (some [0, 0, 0, 0]) 1 =
      ⟨uninitSound, [resInvalidFileMsg "r.rres", resNotFoundMsg "r.rres" 1], []⟩) :=
  claim5_failures_logged "beep.xyz" "b.wav" "m.ogg" "r.rres" initialAudioState
    sampleFreshState none ⟨1, 8000, 10⟩ OggOpen.fail sampleBadRiff sampleBadFmt
    sampleBadData 1 [0, 0, 0, 0] (by decide) (by decide) (by decide) (by decide)
    (by decide) (by decide) (by decide) (by decide) (by decide) (by decide) (by decide)
    (by decide)

/-- C6 (code bug): a file whose first magic byte is wrong ("xRES") is not
reported as invalid — the `&&`-chain over `!=` in the source only fires when
all four bytes differ — and a record is read from it, contradicting the claim
that any differing magic byte is rejected with no records read. -/
theorem claim6_magic_check_bug :
    ((120 :: 82 :: 69 :: 83 :: 1 :: 0 :: 1 :: 0 ::
        encodeResInfoHeader ⟨7, 3, 0, 0⟩).getD 0 0 ≠ 'r'.toNat) ∧
    (loadSoundFromRES "sound.rres"
        (some (120 :: 82 :: 69 :: 83 :: 1 :: 0 :: 1 :: 0 ::
          encodeResInfoHeader ⟨7, 3, 0, 0⟩)) 5).headers ≠ [] ∧
    resInvalidFileMsg "sound.rres" ∉
      (loadSoundFromRES "sound.rres"
        (some (120 :: 82 :: 69 :: 83 :: 1 :: 0 :: 1 :: 0 ::
          encodeResInfoHeader ⟨7, 3, 0, 0⟩)) 5).log := by
  decide

/-- C7: on a well-formed archive none of whose records carries the requested
id, `LoadSoundFromRES` scans exactly the records announced by the record
count, visiting each record's header in order (skipping its type-specific
parameter bytes — 6 for IMAGE and SOUND, 5 for MODEL, 0 for TEXT and RAW —
plus its data), and logs the not-found warning. -/
theorem claim7_res_record_scan (f : String) (resId : Nat) (records : List ResRecord)
    (hwf : ∀ r ∈ records, wellFormedRecord r)
    (hmiss : ∀ r ∈ records, r.id ≠ resId)
    (hlen : records.length < 32768) :
    loadSoundFromRES f (some (encodeArchive records)) resId =
      ⟨uninitSound, [resNotFoundMsg f resId], records.map recordHeader⟩ := by
  have h6 : (encodeArchive records).drop 6 =
      records.length % 256 :: records.length / 256 % 256 ::
        (records.map encodeResRecord).flatten := by
    simp [encodeArchive]
  have hshort : readShort16 ((encodeArchive records).drop 6) = (records.length : Int) := by
    rw [h6]
    simp only [readShort16, List.getD_cons_zero, List.getD_cons_succ]
    have hv : records.length % 256 + 256 * (records.length / 256 % 256) = records.length := by
      omega
    rw [hv, if_pos hlen]
  have hdrop : ((encodeArchive records).drop 6).drop 2 =
      (records.map encodeResRecord).flatten := by
    rw [h6]
    rfl
  have hscan := scanResRecords_skips f resId records [] false uninitSound hwf hmiss
  rw [List.append_nil] at hscan
  have hmagic : ¬((encodeArchive records).getD 0 0 ≠ 'r'.toNat ∧
      (encodeArchive records).getD 1 0 ≠ 'R'.toNat ∧
      (encodeArchive records).getD 2 0 ≠ 'E'.toNat ∧
      (encodeArchive records).getD 3 0 ≠ 'S'.toNat) := by
    simp [encodeArchive]
  simp only [loadSoundFromRES, hmagic, if_false, hshort, hdrop, Int.toNat_natCast, hscan]
  simp

/-- Witness for C7 at a concrete two-record archive. -/
theorem claim7_witness :
    loadSoundFromRES "r.rres"
        (some (encodeArchive [⟨7, 0, [1, 2, 3, 4, 5, 6], [9, 9], 2⟩, ⟨8, 3, [], [], 0⟩])) 5 =
      ⟨uninitSound, [resNotFoundMsg "r.rres" 5],
       ([⟨7, 0, [1, 2, 3, 4, 5, 6], [9, 9], 2⟩, ⟨8, 3, [], [], 0⟩] : List ResRecord).map
         recordHeader⟩ :=
  claim7_res_record_scan "r.rres" 5 [⟨7, 0, [1, 2, 3, 4, 5, 6], [9, 9], 2⟩, ⟨8, 3, [], [], 0⟩]
    (by decide) (by decide) (by decide)

/-- C8: the decode loop of `BufferMusicStream` writes only within the bounds
of the local `pcm` array: every `(offset, length)` write satisfies
`offset + length ≤ MUSIC_BUFFER_SIZE`, the accumulated size never exceeds
`MUSIC_BUFFER_SIZE`, and a refill hands at most `MUSIC_BUFFER_SIZE` shorts to
its buffer. -/
theorem claim8_pcm_in_bounds (s : VorbisStream) (channels : Nat)
    (st : AudioState) (buffer : Nat) :
    ((musicDecodeLoop s channels 0).2.1 ≤ MUSIC_BUFFER_SIZE ∧
     ∀ w ∈ (musicDecodeLoop s channels 0).2.2, w.1 + w.2 ≤ MUSIC_BUFFER_SIZE) ∧
    handedShorts (bufferMusicStream st buffer).2.2 ≤ MUSIC_BUFFER_SIZE :=
  ⟨musicDecodeLoopF_writes _ s channels 0 (Nat.zero_le _),
   bufferMusicStream_handed_le st buffer⟩

/-- Witness for C8 at a concrete stereo stream. -/
theorem claim8_witness :
    ((musicDecodeLoop ⟨5, 0⟩ 2 0).2.1 ≤ MUSIC_BUFFER_SIZE ∧
     ∀ w ∈ (musicDecodeLoop ⟨5, 0⟩ 2 0).2.2, w.1 + w.2 ≤ MUSIC_BUFFER_SIZE) ∧
    handedShorts (bufferMusicStream sampleFreshState 0).2.2 ≤ MUSIC_BUFFER_SIZE :=
  claim8_pcm_in_bounds ⟨5, 0⟩ 2 sampleFreshState 0

/-- C9: every stream successfully opened by `PlayMusicStream` has its loop
flag set; no operation ever changes the flag (`UpdateMusicStream` preserves
it), and from a feeding looping state `UpdateMusicStream` never stops the
stream, so end of stream restarts playback from the beginning. -/
theorem claim9_looping_default (st stq stp : AudioState) (f : String)
    (ch rate total q p : Nat)
    (hext : getExtension f = "ogg")
    (hfeeds : streamFeeds stp) :
    (playMusicStream st f (.ok ch rate total)).1.loop = true ∧
    (updateMusicStream stq q).1.loop = stq.loop ∧
    (updateMusicStream stp p).1.musicEnabled = true := by
  exact ⟨playMusicStream_ok_loop st f ch rate total hext,
    updateMusicStream_keeps_loop stq q,
    updateMusicStream_keeps_enabled stp p hfeeds⟩

/-- Witness for C9 at concrete states. -/
theorem claim9_witness :
    (playMusicStream initialAudioState "m.ogg" (.ok 1 8000 30)).1.loop = true ∧
    (updateMusicStream sampleNoLoopEndState 1).1.loop = sampleNoLoopEndState.loop ∧
    (updateMusicStream sampleLoopEndState 1).1.musicEnabled = true :=
  claim9_looping_default initialAudioState sampleNoLoopEndState sampleLoopEndState "m.ogg"
    1 8000 30 1 1 (by decide) (by decide)

/-- C10 counterexample: after `PlayMusicStream` on a mono stream of 100000
samples, 65536 shorts have been handed to buffers yet `totalSamplesLeft` is
the full 100000, refuting "the counter always equals stream length times
channels minus the shorts handed to buffers since the stream was opened". -/
theorem claim10_counterexample :
    handedShorts (playMusicStream initialAudioState "music.ogg"
      (OggOpen.ok 1 8000 100000)).2.1 = 65536 ∧
    (playMusicStream initialAudioState "music.ogg"
      (OggOpen.ok 1 8000 100000)).1.totalSamplesLeft = 100000 ∧
    (playMusicStream initialAudioState "music.ogg"
      (OggOpen.ok 1 8000 100000)).1.stream.total *
      (playMusicStream initialAudioState "music.ogg"
        (OggOpen.ok 1 8000 100000)).1.channels = 100000 ∧
    ¬((playMusicStream initialAudioState "music.ogg"
        (OggOpen.ok 1 8000 100000)).1.totalSamplesLeft =
      100000 - (handedShorts (playMusicStream initialAudioState "music.ogg"
        (OggOpen.ok 1 8000 100000)).2.1 : Nat)) := by
  decide

/-- C10 (amended): `totalSamplesLeft` is decremented at buffering time by
exactly the shorts handed to the buffer; it is reset to stream length in
samples times channels at the end of a successful `PlayMusicStream` — after
the two initial fills, which are therefore not deducted — and on a loop
restart the counter ends at that product minus the restart fill; and
`GetMusicTimePlayed` reports (length·channels − counter)/(rate·channels),
that is, time buffered rather than time heard. -/
theorem claim10_counter_invariant (stb : AudioState) (b : Nat) (stp : AudioState)
    (f : String) (ch rate total : Nat) (str : AudioState) (stg : AudioState)
    (hext : getExtension f = "ogg")
    (her : str.musicEnabled = true) (hlr : str.loop = true)
    (hfr : (bufferMusicStream
        { str with source := { str.source with queued := str.source.queued.tail } }
        (str.source.queued.headD 0)).1 = false) :
    ((bufferMusicStream stb b).2.1.totalSamplesLeft =
       stb.totalSamplesLeft - (handedShorts (bufferMusicStream stb b).2.2 : Nat)) ∧
    ((playMusicStream stp f (.ok ch rate total)).1.totalSamplesLeft =
       ((total * ch : Nat) : Int)) ∧
    ((updateIter str).1.totalSamplesLeft =
       ((str.stream.total * str.channels : Nat) : Int) -
         (handedShorts (bufferMusicStream
           { str with
              source := { str.source with queued := str.source.queued.tail }
              stream := stb_vorbis_seek_start str.stream
              totalSamplesLeft :=
                (stb_vorbis_stream_length_in_samples str.stream * str.channels : Nat) }
           (str.source.queued.headD 0)).2.2 : Nat)) ∧
    (getMusicTimePlayed stg =
       ((((stb_vorbis_stream_length_in_samples stg.stream * stg.channels : Nat) : Int) -
           stg.totalSamplesLeft : Int) : Rat) /
         ((stg.sampleRate * stg.channels : Nat) : Rat)) := by
  refine ⟨bufferMusicStream_counter stb b,
    playMusicStream_ok_counter stp f ch rate total hext, ?_, rfl⟩
  have her1 : ({ str with source := { str.source with queued := str.source.queued.tail } }
      : AudioState).musicEnabled = true := her
  have hx1 := bufferMusicStream_fail_inv
    { str with source := { str.source with queued := str.source.queued.tail } }
    (str.source.queued.headD 0) her1 hfr
  have hfl := bufferMusicStream_fail_state
    { str with source := { str.source with queued := str.source.queued.tail } }
    (str.source.queued.headD 0) her1 hx1
  rw [updateIter_restart str hlr hfr]
  simp only [hfl]
  rw [bufferMusicStream_counter]
  rfl

/-- Witness for C10 at concrete states. -/
theorem claim10_witness :
    ((bufferMusicStream sampleFreshState 0).2.1.totalSamplesLeft =
       sampleFreshState.totalSamplesLeft -
         (handedShorts (bufferMusicStream sampleFreshState 0).2.2 : Nat)) ∧
    ((playMusicStream initialAudioState "m.ogg" (.ok 1 8000 50)).1.totalSamplesLeft =
       ((50 * 1 : Nat) : Int)) ∧
    ((updateIter sampleLoopEndState).1.totalSamplesLeft =
       ((sampleLoopEndState.stream.total * sampleLoopEndState.channels : Nat) : Int) -
         (handedShorts (bufferMusicStream
           { sampleLoopEndState with
              source := { sampleLoopEndState.source with
                queued := sampleLoopEndState.source.queued.tail }
              stream := stb_vorbis_seek_start sampleLoopEndState.stream
              totalSamplesLeft :=
                (stb_vorbis_stream_length_in_samples sampleLoopEndState.stream *
                  sampleLoopEndState.channels : Nat) }
           (sampleLoopEndState.source.queued.headD 0)).2.2 : Nat)) ∧
    (getMusicTimePlayed sampleFreshState =
       ((((stb_vorbis_stream_length_in_samples sampleFreshState.stream *
             sampleFreshState.channels : Nat) : Int) -
           sampleFreshState.totalSamplesLeft : Int) : Rat) /
         ((sampleFreshState.sampleRate * sampleFreshState.channels : Nat) : Rat)) :=
  claim10_counter_invariant sampleFreshState 0 initialAudioState "m.ogg" 1 8000 50
    sampleLoopEndState sampleFreshState (by decide) (by decide) (by decide) (by decide)
